import Mathlib

/-!
# Verification of the heuristic metadata-extraction pipeline (`work.py`)

A shallow embedding of the core of the repository's single source file
`work.py`: the attribute-inheritance resolver over a styled node tree
(`_tag_value`, `tag_value`, `tag_rect`), the three heuristic stages
(`find_title`, `find_dates`/`parse_dates`, `find_authors` with the
`RE_AUTHOR_NAME` matcher), the structured-value flattener
(`store_recursive`) and the per-document stage loop of `handle_sample`.

Python strings are modelled as Lean `String`s, Python `int` values as `Int`,
exceptions as an explicit error type `PyErr` threaded through `Except`,
and the shared mutable `context` dictionary as an explicit state component
returned next to each stage's result (so that, as in Python, writes that
happened before an exception survive the exception).
-/

namespace Work

set_option maxRecDepth 16384

/-- The Python exceptions that the embedded code can raise.
`insufficient` is the source's `InsufficientParser`; the others are the
built-in exception classes raised by the corresponding Python operations. -/
inductive PyErr where
  | insufficient
  | keyError
  | typeError
  | valueError
  | indexError
  | stopIteration
  | attributeError
  | assertionError
  | exception
deriving DecidableEq, Repr

/-- `e.isOk` for the `Except` results of embedded fallible code. -/
def exceptOk {α : Type} : Except PyErr α → Bool
  | .ok _ => true
  | .error _ => false

/-! ## Models of the Python string primitives used by the source -/

/-- Codepoints stripped by Python's `str.strip()` (the characters `c` with
`c.isspace()` true). -/
def pyWhitespace : List Nat :=
  [0x09, 0x0A, 0x0B, 0x0C, 0x0D, 0x1C, 0x1D, 0x1E, 0x1F, 0x20, 0x85, 0xA0,
   0x1680, 0x2000, 0x2001, 0x2002, 0x2003, 0x2004, 0x2005, 0x2006, 0x2007,
   0x2008, 0x2009, 0x200A, 0x2028, 0x2029, 0x202F, 0x205F, 0x3000]

def pyIsSpace (c : Char) : Bool := pyWhitespace.contains c.toNat

/-- Python `str.strip()` with no arguments. -/
def pyStrip (s : String) : String :=
  String.mk (((s.data.dropWhile pyIsSpace).reverse.dropWhile pyIsSpace).reverse)

/-- Per-character model of Python `str.lower()` on the codepoint ranges that
occur in this development: ASCII and the Latin-1 letter block.  (Full Unicode
simple case folding agrees with this on every string the source compares
against its ASCII keyword constants.) -/
def charLower (c : Char) : Char :=
  let n := c.toNat
  if 65 ≤ n ∧ n ≤ 90 then Char.ofNat (n + 32)
  else if (192 ≤ n ∧ n ≤ 214) ∨ (216 ≤ n ∧ n ≤ 222) then Char.ofNat (n + 32)
  else c

/-- Python `str.lower()`. -/
def pyLower (s : String) : String := String.mk (s.data.map charLower)

/-- Python `str.split(sep)` for the single-character separators the source
uses (`"/"`, `":"`, `"\n"`): split on every occurrence, keeping empty
pieces (`"".split(sep) == [""]`). -/
def splitChar (sep : Char) : List Char → List (List Char)
  | [] => [[]]
  | c :: rest =>
    let r := splitChar sep rest
    if c == sep then [] :: r
    else
      match r with
      | [] => [[c]]
      | h :: t => (c :: h) :: t

def pySplit (s : String) (sep : Char) : List String :=
  (splitChar sep s.data).map String.mk

/-- Python `str.startswith(prefix)`. -/
def strStartsWith (s pre : String) : Bool := List.isPrefixOf pre.data s.data

/-- Python slicing `s[:n]` (by characters). -/
def strTake (s : String) (n : Nat) : String := String.mk (s.data.take n)

/-- Python `int(str)`: surrounding whitespace, an optional sign, then one or
more ASCII decimal digits; anything else raises `ValueError` (modelled as
`none`). -/
def pyInt (s : String) : Option Int :=
  let digitsVal : List Char → Option Nat := fun cs =>
    if cs.isEmpty then none
    else if cs.all Char.isDigit then
      some (cs.foldl (fun acc c => acc * 10 + (c.toNat - 48)) 0)
    else none
  match (pyStrip s).data with
  | '-' :: rest => (digitsVal rest).map (fun n => -(n : Int))
  | '+' :: rest => (digitsVal rest).map (fun n => (n : Int))
  | cs => (digitsVal cs).map (fun n => (n : Int))

/-! ## Character classes of the hand-maintained regexes

The range tables below are transcriptions of the `_RE_UPPERCASE`,
`_RE_LOWERCASE`, `_RE_MODIFIER`, `_RE_DASH` and `_RE_SPACE` character
classes of `work.py` (inclusive codepoint ranges). -/

def inRanges (rs : List (Nat × Nat)) (n : Nat) : Bool :=
  rs.any (fun p => p.1 ≤ n && n ≤ p.2)

/-- The `_RE_SPACE` class (Unicode category Zs as listed in the source). -/
def spaceRanges : List (Nat × Nat) := [
  (32, 32), (160, 160), (8192, 8202), (8239, 8239), (8287, 8287), (12288, 12288)]

def isSpaceZs (c : Char) : Bool := inRanges spaceRanges c.toNat

/-- The `RE_WHITESPACE` class: `[\n\t]` plus the `_RE_SPACE` class. -/
def isWsRe (c : Char) : Bool := c == '\n' || c == '\t' || isSpaceZs c

/-- The `_RE_DASH` class (Unicode category Pd as listed in the source). -/
def dashRanges : List (Nat × Nat) := [
  (45, 45), (1418, 1418), (6150, 6150), (8208, 8213), (65112, 65112),
  (65123, 65123), (65293, 65293)]

/-- The `_RE_MODIFIER` class (Unicode category Sk as listed in the source). -/
def modifierRanges : List (Nat × Nat) := [
  (94, 94), (96, 96), (168, 168), (175, 175), (180, 180), (184, 184),
  (706, 709), (722, 722), (723, 723), (724, 729), (730, 735), (741, 767),
  (885, 885), (900, 900), (901, 901), (2184, 2184), (8125, 8125), (8127, 8129),
  (8141, 8143), (8157, 8159), (8173, 8173), (8174, 8174), (8175, 8175), (8189, 8189),
  (8190, 8190), (12443, 12443), (12444, 12444), (42752, 42774), (42784, 42784), (42785, 42785),
  (42889, 42889), (42890, 42890), (43867, 43867), (43882, 43882), (43883, 43883), (64434, 64450),
  (65342, 65342), (65344, 65344), (65507, 65507)]

/-- The `_RE_UPPERCASE` class ranges (672 entries, transcribed from the source). -/
def upperRanges : List (Nat × Nat) := [
  (65, 90), (192, 214), (216, 222), (256, 256), (258, 258), (260, 260),
  (262, 262), (264, 264), (266, 266), (268, 268), (270, 270), (272, 272),
  (274, 274), (276, 276), (278, 278), (280, 280), (282, 282), (284, 284),
  (286, 286), (288, 288), (290, 290), (292, 292), (294, 294), (296, 296),
  (298, 298), (300, 300), (302, 302), (304, 304), (306, 306), (308, 308),
  (310, 310), (313, 313), (315, 315), (317, 317), (319, 319), (321, 321),
  (323, 323), (325, 325), (327, 327), (330, 330), (332, 332), (334, 334),
  (336, 336), (338, 338), (340, 340), (342, 342), (344, 344), (346, 346),
  (348, 348), (350, 350), (352, 352), (354, 354), (356, 356), (358, 358),
  (360, 360), (362, 362), (364, 364), (366, 366), (368, 368), (370, 370),
  (372, 372), (374, 374), (376, 376), (377, 377), (379, 379), (381, 381),
  (385, 385), (386, 386), (388, 388), (390, 390), (391, 391), (393, 395),
  (398, 401), (403, 403), (404, 404), (406, 408), (412, 412), (413, 413),
  (415, 415), (416, 416), (418, 418), (420, 420), (422, 422), (423, 423),
  (425, 425), (428, 428), (430, 430), (431, 431), (433, 435), (437, 437),
  (439, 439), (440, 440), (444, 444), (452, 452), (455, 455), (458, 458),
  (461, 461), (463, 463), (465, 465), (467, 467), (469, 469), (471, 471),
  (473, 473), (475, 475), (478, 478), (480, 480), (482, 482), (484, 484),
  (486, 486), (488, 488), (490, 490), (492, 492), (494, 494), (497, 497),
  (500, 500), (502, 504), (506, 506), (508, 508), (510, 510), (512, 512),
  (514, 514), (516, 516), (518, 518), (520, 520), (522, 522), (524, 524),
  (526, 526), (528, 528), (530, 530), (532, 532), (534, 534), (536, 536),
  (538, 538), (540, 540), (542, 542), (544, 544), (546, 546), (548, 548),
  (550, 550), (552, 552), (554, 554), (556, 556), (558, 558), (560, 560),
  (562, 562), (570, 570), (571, 571), (573, 573), (574, 574), (577, 577),
  (579, 582), (584, 584), (586, 586), (588, 588), (590, 590), (880, 880),
  (882, 882), (886, 886), (895, 895), (902, 902), (904, 906), (908, 908),
  (910, 910), (911, 911), (913, 929), (931, 939), (975, 975), (978, 980),
  (984, 984), (986, 986), (988, 988), (990, 990), (992, 992), (994, 994),
  (996, 996), (998, 998), (1000, 1000), (1002, 1002), (1004, 1004), (1006, 1006),
  (1012, 1012), (1015, 1015), (1017, 1017), (1018, 1018), (1021, 1071), (1120, 1120),
  (1122, 1122), (1124, 1124), (1126, 1126), (1128, 1128), (1130, 1130), (1132, 1132),
  (1134, 1134), (1136, 1136), (1138, 1138), (1140, 1140), (1142, 1142), (1144, 1144),
  (1146, 1146), (1148, 1148), (1150, 1150), (1152, 1152), (1162, 1162), (1164, 1164),
  (1166, 1166), (1168, 1168), (1170, 1170), (1172, 1172), (1174, 1174), (1176, 1176),
  (1178, 1178), (1180, 1180), (1182, 1182), (1184, 1184), (1186, 1186), (1188, 1188),
  (1190, 1190), (1192, 1192), (1194, 1194), (1196, 1196), (1198, 1198), (1200, 1200),
  (1202, 1202), (1204, 1204), (1206, 1206), (1208, 1208), (1210, 1210), (1212, 1212),
  (1214, 1214), (1216, 1216), (1217, 1217), (1219, 1219), (1221, 1221), (1223, 1223),
  (1225, 1225), (1227, 1227), (1229, 1229), (1232, 1232), (1234, 1234), (1236, 1236),
  (1238, 1238), (1240, 1240), (1242, 1242), (1244, 1244), (1246, 1246), (1248, 1248),
  (1250, 1250), (1252, 1252), (1254, 1254), (1256, 1256), (1258, 1258), (1260, 1260),
  (1262, 1262), (1264, 1264), (1266, 1266), (1268, 1268), (1270, 1270), (1272, 1272),
  (1274, 1274), (1276, 1276), (1278, 1278), (1280, 1280), (1282, 1282), (1284, 1284),
  (1286, 1286), (1288, 1288), (1290, 1290), (1292, 1292), (1294, 1294), (1296, 1296),
  (1298, 1298), (1300, 1300), (1302, 1302), (1304, 1304), (1306, 1306), (1308, 1308),
  (1310, 1310), (1312, 1312), (1314, 1314), (1316, 1316), (1318, 1318), (1320, 1320),
  (1322, 1322), (1324, 1324), (1326, 1326), (1329, 1366), (4256, 4293), (4295, 4295),
  (4301, 4301), (5024, 5109), (7312, 7354), (7357, 7359), (7680, 7680), (7682, 7682),
  (7684, 7684), (7686, 7686), (7688, 7688), (7690, 7690), (7692, 7692), (7694, 7694),
  (7696, 7696), (7698, 7698), (7700, 7700), (7702, 7702), (7704, 7704), (7706, 7706),
  (7708, 7708), (7710, 7710), (7712, 7712), (7714, 7714), (7716, 7716), (7718, 7718),
  (7720, 7720), (7722, 7722), (7724, 7724), (7726, 7726), (7728, 7728), (7730, 7730),
  (7732, 7732), (7734, 7734), (7736, 7736), (7738, 7738), (7740, 7740), (7742, 7742),
  (7744, 7744), (7746, 7746), (7748, 7748), (7750, 7750), (7752, 7752), (7754, 7754),
  (7756, 7756), (7758, 7758), (7760, 7760), (7762, 7762), (7764, 7764), (7766, 7766),
  (7768, 7768), (7770, 7770), (7772, 7772), (7774, 7774), (7776, 7776), (7778, 7778),
  (7780, 7780), (7782, 7782), (7784, 7784), (7786, 7786), (7788, 7788), (7790, 7790),
  (7792, 7792), (7794, 7794), (7796, 7796), (7798, 7798), (7800, 7800), (7802, 7802),
  (7804, 7804), (7806, 7806), (7808, 7808), (7810, 7810), (7812, 7812), (7814, 7814),
  (7816, 7816), (7818, 7818), (7820, 7820), (7822, 7822), (7824, 7824), (7826, 7826),
  (7828, 7828), (7838, 7838), (7840, 7840), (7842, 7842), (7844, 7844), (7846, 7846),
  (7848, 7848), (7850, 7850), (7852, 7852), (7854, 7854), (7856, 7856), (7858, 7858),
  (7860, 7860), (7862, 7862), (7864, 7864), (7866, 7866), (7868, 7868), (7870, 7870),
  (7872, 7872), (7874, 7874), (7876, 7876), (7878, 7878), (7880, 7880), (7882, 7882),
  (7884, 7884), (7886, 7886), (7888, 7888), (7890, 7890), (7892, 7892), (7894, 7894),
  (7896, 7896), (7898, 7898), (7900, 7900), (7902, 7902), (7904, 7904), (7906, 7906),
  (7908, 7908), (7910, 7910), (7912, 7912), (7914, 7914), (7916, 7916), (7918, 7918),
  (7920, 7920), (7922, 7922), (7924, 7924), (7926, 7926), (7928, 7928), (7930, 7930),
  (7932, 7932), (7934, 7934), (7944, 7951), (7960, 7965), (7976, 7983), (7992, 7999),
  (8008, 8013), (8025, 8025), (8027, 8027), (8029, 8029), (8031, 8031), (8040, 8047),
  (8120, 8123), (8136, 8139), (8152, 8155), (8168, 8172), (8184, 8187), (8450, 8450),
  (8455, 8455), (8459, 8461), (8464, 8466), (8469, 8469), (8473, 8477), (8484, 8484),
  (8486, 8486), (8488, 8488), (8490, 8493), (8496, 8499), (8510, 8510), (8511, 8511),
  (8517, 8517), (8544, 8559), (8579, 8579), (9398, 9423), (11264, 11311), (11360, 11360),
  (11362, 11364), (11367, 11367), (11369, 11369), (11371, 11371), (11373, 11376), (11378, 11378),
  (11381, 11381), (11390, 11392), (11394, 11394), (11396, 11396), (11398, 11398), (11400, 11400),
  (11402, 11402), (11404, 11404), (11406, 11406), (11408, 11408), (11410, 11410), (11412, 11412),
  (11414, 11414), (11416, 11416), (11418, 11418), (11420, 11420), (11422, 11422), (11424, 11424),
  (11426, 11426), (11428, 11428), (11430, 11430), (11432, 11432), (11434, 11434), (11436, 11436),
  (11438, 11438), (11440, 11440), (11442, 11442), (11444, 11444), (11446, 11446), (11448, 11448),
  (11450, 11450), (11452, 11452), (11454, 11454), (11456, 11456), (11458, 11458), (11460, 11460),
  (11462, 11462), (11464, 11464), (11466, 11466), (11468, 11468), (11470, 11470), (11472, 11472),
  (11474, 11474), (11476, 11476), (11478, 11478), (11480, 11480), (11482, 11482), (11484, 11484),
  (11486, 11486), (11488, 11488), (11490, 11490), (11499, 11499), (11501, 11501), (11506, 11506),
  (42560, 42560), (42562, 42562), (42564, 42564), (42566, 42566), (42568, 42568), (42570, 42570),
  (42572, 42572), (42574, 42574), (42576, 42576), (42578, 42578), (42580, 42580), (42582, 42582),
  (42584, 42584), (42586, 42586), (42588, 42588), (42590, 42590), (42592, 42592), (42594, 42594),
  (42596, 42596), (42598, 42598), (42600, 42600), (42602, 42602), (42604, 42604), (42624, 42624),
  (42626, 42626), (42628, 42628), (42630, 42630), (42632, 42632), (42634, 42634), (42636, 42636),
  (42638, 42638), (42640, 42640), (42642, 42642), (42644, 42644), (42646, 42646), (42648, 42648),
  (42650, 42650), (42786, 42786), (42788, 42788), (42790, 42790), (42792, 42792), (42794, 42794),
  (42796, 42796), (42798, 42798), (42802, 42802), (42804, 42804), (42806, 42806), (42808, 42808),
  (42810, 42810), (42812, 42812), (42814, 42814), (42816, 42816), (42818, 42818), (42820, 42820),
  (42822, 42822), (42824, 42824), (42826, 42826), (42828, 42828), (42830, 42830), (42832, 42832),
  (42834, 42834), (42836, 42836), (42838, 42838), (42840, 42840), (42842, 42842), (42844, 42844),
  (42846, 42846), (42848, 42848), (42850, 42850), (42852, 42852), (42854, 42854), (42856, 42856),
  (42858, 42858), (42860, 42860), (42862, 42862), (42873, 42873), (42875, 42875), (42877, 42877),
  (42878, 42878), (42880, 42880), (42882, 42882), (42884, 42884), (42886, 42886), (42891, 42891),
  (42893, 42893), (42896, 42896), (42898, 42898), (42902, 42902), (42904, 42904), (42906, 42906),
  (42908, 42908), (42910, 42910), (42912, 42912), (42914, 42914), (42916, 42916), (42918, 42918),
  (42920, 42920), (42922, 42926), (42928, 42932), (42934, 42934), (42936, 42936), (42938, 42938),
  (42940, 42940), (42942, 42942), (42944, 42944), (42946, 42946), (42948, 42951), (42953, 42953),
  (42960, 42960), (42966, 42966), (42968, 42968), (42997, 42997), (65313, 65338), (66560, 66599),
  (66736, 66771), (66928, 66938), (66940, 66954), (66956, 66962), (66964, 66964), (66965, 66965),
  (68736, 68786), (71840, 71871), (93760, 93791), (119808, 119833), (119860, 119885), (119912, 119937),
  (119964, 119964), (119966, 119966), (119967, 119967), (119970, 119970), (119973, 119973), (119974, 119974),
  (119977, 119980), (119982, 119989), (120016, 120041), (120068, 120068), (120069, 120069), (120071, 120074),
  (120077, 120084), (120086, 120092), (120120, 120120), (120121, 120121), (120123, 120126), (120128, 120132),
  (120134, 120134), (120138, 120144), (120172, 120197), (120224, 120249), (120276, 120301), (120328, 120353),
  (120380, 120405), (120432, 120457), (120488, 120512), (120546, 120570), (120604, 120628), (120662, 120686),
  (120720, 120744), (120778, 120778), (125184, 125217), (127280, 127305), (127312, 127337), (127344, 127369)]

/-- The `_RE_LOWERCASE` class ranges (693 entries, transcribed from the source). -/
def lowerRanges : List (Nat × Nat) := [
  (97, 122), (170, 170), (181, 181), (186, 186), (223, 246), (248, 255),
  (257, 257), (259, 259), (261, 261), (263, 263), (265, 265), (267, 267),
  (269, 269), (271, 271), (273, 273), (275, 275), (277, 277), (279, 279),
  (281, 281), (283, 283), (285, 285), (287, 287), (289, 289), (291, 291),
  (293, 293), (295, 295), (297, 297), (299, 299), (301, 301), (303, 303),
  (305, 305), (307, 307), (309, 309), (311, 311), (312, 312), (314, 314),
  (316, 316), (318, 318), (320, 320), (322, 322), (324, 324), (326, 326),
  (328, 328), (329, 329), (331, 331), (333, 333), (335, 335), (337, 337),
  (339, 339), (341, 341), (343, 343), (345, 345), (347, 347), (349, 349),
  (351, 351), (353, 353), (355, 355), (357, 357), (359, 359), (361, 361),
  (363, 363), (365, 365), (367, 367), (369, 369), (371, 371), (373, 373),
  (375, 375), (378, 378), (380, 380), (382, 384), (387, 387), (389, 389),
  (392, 392), (396, 396), (397, 397), (402, 402), (405, 405), (409, 411),
  (414, 414), (417, 417), (419, 419), (421, 421), (424, 424), (426, 426),
  (427, 427), (429, 429), (432, 432), (436, 436), (438, 438), (441, 441),
  (442, 442), (445, 447), (454, 454), (457, 457), (460, 460), (462, 462),
  (464, 464), (466, 466), (468, 468), (470, 470), (472, 472), (474, 474),
  (476, 476), (477, 477), (479, 479), (481, 481), (483, 483), (485, 485),
  (487, 487), (489, 489), (491, 491), (493, 493), (495, 495), (496, 496),
  (499, 499), (501, 501), (505, 505), (507, 507), (509, 509), (511, 511),
  (513, 513), (515, 515), (517, 517), (519, 519), (521, 521), (523, 523),
  (525, 525), (527, 527), (529, 529), (531, 531), (533, 533), (535, 535),
  (537, 537), (539, 539), (541, 541), (543, 543), (545, 545), (547, 547),
  (549, 549), (551, 551), (553, 553), (555, 555), (557, 557), (559, 559),
  (561, 561), (563, 569), (572, 572), (575, 575), (576, 576), (578, 578),
  (583, 583), (585, 585), (587, 587), (589, 589), (591, 659), (661, 696),
  (704, 704), (705, 705), (736, 740), (837, 837), (881, 881), (883, 883),
  (887, 887), (890, 893), (912, 912), (940, 974), (976, 976), (977, 977),
  (981, 983), (985, 985), (987, 987), (989, 989), (991, 991), (993, 993),
  (995, 995), (997, 997), (999, 999), (1001, 1001), (1003, 1003), (1005, 1005),
  (1007, 1011), (1013, 1013), (1016, 1016), (1019, 1019), (1020, 1020), (1072, 1119),
  (1121, 1121), (1123, 1123), (1125, 1125), (1127, 1127), (1129, 1129), (1131, 1131),
  (1133, 1133), (1135, 1135), (1137, 1137), (1139, 1139), (1141, 1141), (1143, 1143),
  (1145, 1145), (1147, 1147), (1149, 1149), (1151, 1151), (1153, 1153), (1163, 1163),
  (1165, 1165), (1167, 1167), (1169, 1169), (1171, 1171), (1173, 1173), (1175, 1175),
  (1177, 1177), (1179, 1179), (1181, 1181), (1183, 1183), (1185, 1185), (1187, 1187),
  (1189, 1189), (1191, 1191), (1193, 1193), (1195, 1195), (1197, 1197), (1199, 1199),
  (1201, 1201), (1203, 1203), (1205, 1205), (1207, 1207), (1209, 1209), (1211, 1211),
  (1213, 1213), (1215, 1215), (1218, 1218), (1220, 1220), (1222, 1222), (1224, 1224),
  (1226, 1226), (1228, 1228), (1230, 1230), (1231, 1231), (1233, 1233), (1235, 1235),
  (1237, 1237), (1239, 1239), (1241, 1241), (1243, 1243), (1245, 1245), (1247, 1247),
  (1249, 1249), (1251, 1251), (1253, 1253), (1255, 1255), (1257, 1257), (1259, 1259),
  (1261, 1261), (1263, 1263), (1265, 1265), (1267, 1267), (1269, 1269), (1271, 1271),
  (1273, 1273), (1275, 1275), (1277, 1277), (1279, 1279), (1281, 1281), (1283, 1283),
  (1285, 1285), (1287, 1287), (1289, 1289), (1291, 1291), (1293, 1293), (1295, 1295),
  (1297, 1297), (1299, 1299), (1301, 1301), (1303, 1303), (1305, 1305), (1307, 1307),
  (1309, 1309), (1311, 1311), (1313, 1313), (1315, 1315), (1317, 1317), (1319, 1319),
  (1321, 1321), (1323, 1323), (1325, 1325), (1327, 1327), (1376, 1416), (4304, 4346),
  (4348, 4351), (5112, 5117), (7296, 7304), (7424, 7615), (7681, 7681), (7683, 7683),
  (7685, 7685), (7687, 7687), (7689, 7689), (7691, 7691), (7693, 7693), (7695, 7695),
  (7697, 7697), (7699, 7699), (7701, 7701), (7703, 7703), (7705, 7705), (7707, 7707),
  (7709, 7709), (7711, 7711), (7713, 7713), (7715, 7715), (7717, 7717), (7719, 7719),
  (7721, 7721), (7723, 7723), (7725, 7725), (7727, 7727), (7729, 7729), (7731, 7731),
  (7733, 7733), (7735, 7735), (7737, 7737), (7739, 7739), (7741, 7741), (7743, 7743),
  (7745, 7745), (7747, 7747), (7749, 7749), (7751, 7751), (7753, 7753), (7755, 7755),
  (7757, 7757), (7759, 7759), (7761, 7761), (7763, 7763), (7765, 7765), (7767, 7767),
  (7769, 7769), (7771, 7771), (7773, 7773), (7775, 7775), (7777, 7777), (7779, 7779),
  (7781, 7781), (7783, 7783), (7785, 7785), (7787, 7787), (7789, 7789), (7791, 7791),
  (7793, 7793), (7795, 7795), (7797, 7797), (7799, 7799), (7801, 7801), (7803, 7803),
  (7805, 7805), (7807, 7807), (7809, 7809), (7811, 7811), (7813, 7813), (7815, 7815),
  (7817, 7817), (7819, 7819), (7821, 7821), (7823, 7823), (7825, 7825), (7827, 7827),
  (7829, 7837), (7839, 7839), (7841, 7841), (7843, 7843), (7845, 7845), (7847, 7847),
  (7849, 7849), (7851, 7851), (7853, 7853), (7855, 7855), (7857, 7857), (7859, 7859),
  (7861, 7861), (7863, 7863), (7865, 7865), (7867, 7867), (7869, 7869), (7871, 7871),
  (7873, 7873), (7875, 7875), (7877, 7877), (7879, 7879), (7881, 7881), (7883, 7883),
  (7885, 7885), (7887, 7887), (7889, 7889), (7891, 7891), (7893, 7893), (7895, 7895),
  (7897, 7897), (7899, 7899), (7901, 7901), (7903, 7903), (7905, 7905), (7907, 7907),
  (7909, 7909), (7911, 7911), (7913, 7913), (7915, 7915), (7917, 7917), (7919, 7919),
  (7921, 7921), (7923, 7923), (7925, 7925), (7927, 7927), (7929, 7929), (7931, 7931),
  (7933, 7933), (7935, 7943), (7952, 7957), (7968, 7975), (7984, 7991), (8000, 8005),
  (8016, 8023), (8032, 8039), (8048, 8061), (8064, 8071), (8080, 8087), (8096, 8103),
  (8112, 8116), (8118, 8118), (8119, 8119), (8126, 8126), (8130, 8132), (8134, 8134),
  (8135, 8135), (8144, 8147), (8150, 8150), (8151, 8151), (8160, 8167), (8178, 8180),
  (8182, 8182), (8183, 8183), (8305, 8305), (8319, 8319), (8336, 8348), (8458, 8458),
  (8462, 8462), (8463, 8463), (8467, 8467), (8495, 8495), (8500, 8500), (8505, 8505),
  (8508, 8508), (8509, 8509), (8518, 8521), (8526, 8526), (8560, 8575), (8580, 8580),
  (9424, 9449), (11312, 11359), (11361, 11361), (11365, 11365), (11366, 11366), (11368, 11368),
  (11370, 11370), (11372, 11372), (11377, 11377), (11379, 11379), (11380, 11380), (11382, 11389),
  (11393, 11393), (11395, 11395), (11397, 11397), (11399, 11399), (11401, 11401), (11403, 11403),
  (11405, 11405), (11407, 11407), (11409, 11409), (11411, 11411), (11413, 11413), (11415, 11415),
  (11417, 11417), (11419, 11419), (11421, 11421), (11423, 11423), (11425, 11425), (11427, 11427),
  (11429, 11429), (11431, 11431), (11433, 11433), (11435, 11435), (11437, 11437), (11439, 11439),
  (11441, 11441), (11443, 11443), (11445, 11445), (11447, 11447), (11449, 11449), (11451, 11451),
  (11453, 11453), (11455, 11455), (11457, 11457), (11459, 11459), (11461, 11461), (11463, 11463),
  (11465, 11465), (11467, 11467), (11469, 11469), (11471, 11471), (11473, 11473), (11475, 11475),
  (11477, 11477), (11479, 11479), (11481, 11481), (11483, 11483), (11485, 11485), (11487, 11487),
  (11489, 11489), (11491, 11491), (11492, 11492), (11500, 11500), (11502, 11502), (11507, 11507),
  (11520, 11557), (11559, 11559), (11565, 11565), (42561, 42561), (42563, 42563), (42565, 42565),
  (42567, 42567), (42569, 42569), (42571, 42571), (42573, 42573), (42575, 42575), (42577, 42577),
  (42579, 42579), (42581, 42581), (42583, 42583), (42585, 42585), (42587, 42587), (42589, 42589),
  (42591, 42591), (42593, 42593), (42595, 42595), (42597, 42597), (42599, 42599), (42601, 42601),
  (42603, 42603), (42605, 42605), (42625, 42625), (42627, 42627), (42629, 42629), (42631, 42631),
  (42633, 42633), (42635, 42635), (42637, 42637), (42639, 42639), (42641, 42641), (42643, 42643),
  (42645, 42645), (42647, 42647), (42649, 42649), (42651, 42653), (42787, 42787), (42789, 42789),
  (42791, 42791), (42793, 42793), (42795, 42795), (42797, 42797), (42799, 42801), (42803, 42803),
  (42805, 42805), (42807, 42807), (42809, 42809), (42811, 42811), (42813, 42813), (42815, 42815),
  (42817, 42817), (42819, 42819), (42821, 42821), (42823, 42823), (42825, 42825), (42827, 42827),
  (42829, 42829), (42831, 42831), (42833, 42833), (42835, 42835), (42837, 42837), (42839, 42839),
  (42841, 42841), (42843, 42843), (42845, 42845), (42847, 42847), (42849, 42849), (42851, 42851),
  (42853, 42853), (42855, 42855), (42857, 42857), (42859, 42859), (42861, 42861), (42863, 42872),
  (42874, 42874), (42876, 42876), (42879, 42879), (42881, 42881), (42883, 42883), (42885, 42885),
  (42887, 42887), (42892, 42892), (42894, 42894), (42897, 42897), (42899, 42901), (42903, 42903),
  (42905, 42905), (42907, 42907), (42909, 42909), (42911, 42911), (42913, 42913), (42915, 42915),
  (42917, 42917), (42919, 42919), (42921, 42921), (42927, 42927), (42933, 42933), (42935, 42935),
  (42937, 42937), (42939, 42939), (42941, 42941), (42943, 42943), (42945, 42945), (42947, 42947),
  (42952, 42952), (42954, 42954), (42961, 42961), (42963, 42963), (42965, 42965), (42967, 42967),
  (42969, 42969), (42994, 42996), (42998, 42998), (43000, 43002), (43824, 43866), (43868, 43881),
  (43888, 43967), (64256, 64262), (64275, 64279), (65345, 65370), (66600, 66639), (66776, 66811),
  (66967, 66977), (66979, 66993), (66995, 67001), (67003, 67003), (67004, 67004), (67456, 67456),
  (67459, 67461), (67463, 67504), (67506, 67514), (68800, 68850), (71872, 71903), (93792, 93823),
  (119834, 119859), (119886, 119892), (119894, 119911), (119938, 119963), (119990, 119993), (119995, 119995),
  (119997, 120003), (120005, 120015), (120042, 120067), (120094, 120119), (120146, 120171), (120198, 120223),
  (120250, 120275), (120302, 120327), (120354, 120379), (120406, 120431), (120458, 120485), (120514, 120538),
  (120540, 120545), (120572, 120596), (120598, 120603), (120630, 120654), (120656, 120661), (120688, 120712),
  (120714, 120719), (120746, 120770), (120772, 120777), (120779, 120779), (122624, 122633), (122635, 122654),
  (122661, 122666), (122928, 122989), (125218, 125251)]

/-- The `_RE_LETTER` class: `[A-Za-z]` together with the bodies of the
uppercase and lowercase classes (the source concatenates the range tables;
`A-Z` and `a-z` are already contained in them). -/
def isLetterClass (c : Char) : Bool :=
  inRanges upperRanges c.toNat || inRanges lowerRanges c.toNat

/-- The `_RE_NAME_COMPONENT` class:
letters, spacing-modifier marks, the ASCII period, and dashes. -/
def isNameComponentChar (c : Char) : Bool :=
  isLetterClass c || inRanges modifierRanges c.toNat || c == '.' ||
    inRanges dashRanges c.toNat

/-! ## The author-name regex `RE_AUTHOR_NAME`

The pattern is `(?:(,|·)Zs+)?(NC+(Zs NC+)+)` where `NC` is the
name-component class and `Zs` the space class, used with `re.match`
(anchored at the start, matching a prefix of the string) and `re.search`
(anchored anywhere).  Because `NC` and `Zs` are disjoint character classes,
a match of the mandatory part exists at a given position iff a maximal
nonempty `NC` run there is followed by one `Zs` character and another `NC`
character. -/

/-- After the leading `NC` run: skip further `NC` chars, then require one
space-class char followed by an `NC` char (the first `(Zs NC+)` repetition;
further repetitions are optional so existence needs only this much). -/
def nameTail : List Char → Bool
  | [] => false
  | c :: rest =>
    if isNameComponentChar c then nameTail rest
    else isSpaceZs c && (match rest with
      | [] => false
      | d :: _ => isNameComponentChar d)

/-- Match of the mandatory group `NC+(Zs NC+)+` at the start of `cs`. -/
def nameMatchAt : List Char → Bool
  | [] => false
  | c :: rest => isNameComponentChar c && nameTail rest

/-- Match of the whole pattern (with its optional `(,|·)Zs+` prefix) at the
start of `cs`. -/
def authorMatchAt (cs : List Char) : Bool :=
  match cs with
  | c :: d :: rest =>
    if (c == ',' || c == '·') && isSpaceZs d then
      nameMatchAt ((d :: rest).dropWhile isSpaceZs) || nameMatchAt cs
    else nameMatchAt cs
  | _ => nameMatchAt cs

/-- `RE_AUTHOR_NAME.match(s)` viewed as a Boolean (a match object is truthy,
`None` falsy): does the pattern match at the start of `s`? -/
def reAuthorMatch (s : String) : Bool := authorMatchAt s.data

/-- `RE_AUTHOR_NAME.search(s)` viewed as a Boolean: does the pattern match
at some position of `s`? -/
def reAuthorSearch (s : String) : Bool := s.data.tails.any authorMatchAt

/-- `RE_PREFIX_SKIP = ^(,|·)Zs+`: strip one leading separator (comma or
middle dot) followed by the maximal run of space-class characters, if the
string starts with such a run (`find_authors` drops the matched span). -/
def stripPrefixSkip (s : String) : String :=
  match s.data with
  | c :: d :: rest =>
    if (c == ',' || c == '·') && isSpaceZs d then
      String.mk ((d :: rest).dropWhile isSpaceZs)
    else s
  | _ => s

/-- `normalize_str`: `RE_WHITESPACE.sub(" ", content.strip())` — strip, then
collapse each maximal run of `[\n\t Zs]` characters to one ASCII space. -/
def collapseWs : Bool → List Char → List Char
  | _, [] => []
  | prevWs, c :: rest =>
    if isWsRe c then
      if prevWs then collapseWs true rest else ' ' :: collapseWs true rest
    else c :: collapseWs false rest

def normalize_str (content : String) : String :=
  String.mk (collapseWs false (pyStrip content).data)

/-! ## The styled node tree

A BeautifulSoup tree after `preprocess_soup`: a tag has a name, inlined
attributes (CSS properties, `page`, …) and ordered children; text lives in
string leaves.  `tag.text` concatenates all descendant strings.  Parent
links are represented by carrying, next to each tag, the list of its
ancestors (nearest first) during traversal. -/

inductive Node where
  | tag (name : String) (attrs : List (String × String)) (children : List Node)
  | text (s : String)
deriving Repr

/-- `tag.get(name)`: attribute lookup on the node itself. -/
def getAttr (n : Node) (key : String) : Option String :=
  match n with
  | .text _ => none
  | .tag _ attrs _ => (attrs.find? (fun p => p.1 == key)).map (fun p => p.2)

/-- `tag.name` (string leaves have no name). -/
def nodeName (n : Node) : String :=
  match n with
  | .text _ => ""
  | .tag nm _ _ => nm

mutual
/-- `tag.text`: concatenation of all descendant strings. -/
def nodeText : Node → String
  | .text s => s
  | .tag _ _ cs => nodesText cs

def nodesText : List Node → String
  | [] => ""
  | n :: rest => nodeText n ++ nodesText rest
end

/-- An element paired with its ancestor chain (nearest ancestor first). -/
abbrev Elem := Node × List Node

mutual
/-- The tag elements of a subtree in document (pre-)order, each with its
ancestor chain; this is the order in which `soup.find` / `soup.find_all`
visit tags. -/
def nodeElems (anc : List Node) : Node → List Elem
  | .text _ => []
  | .tag nm attrs cs =>
    (Node.tag nm attrs cs, anc) :: nodesElems (Node.tag nm attrs cs :: anc) cs

def nodesElems (anc : List Node) : List Node → List Elem
  | [] => []
  | n :: rest => nodeElems anc n ++ nodesElems anc rest
end

/-- A parsed document: the top-level nodes of the soup. -/
abbrev Soup := List Node

def soupElems (soup : Soup) : List Elem := nodesElems [] soup

/-! ## The attribute resolver (`_tag_value`, `tag_value`, `tag_rect`) -/

/-- A Python attribute value as produced by `_tag_value`: the raw string
(no cast) or the result of the `int` cast. -/
inductive PyVal where
  | s (v : String)
  | i (v : Int)
deriving DecidableEq, Repr

/-- The two cast arguments the source passes to `tag_value`/`_tag_value`:
`cast=None` and `cast=int`. -/
inductive Cast where
  | none
  | int
deriving DecidableEq, Repr

/-- `_tag_value(tag, name, cast)`.  The body is
`value is not None and cast(value) or None`, so with a cast the result is
`None` both when the attribute is absent and when the cast value is falsy
(`int` value `0`); an unparseable string raises `ValueError`. -/
def tagValueOwn (t : Node) (name : String) (cast : Cast) :
    Except PyErr (Option PyVal) :=
  match cast with
  | .none => .ok ((getAttr t name).map PyVal.s)
  | .int =>
    match getAttr t name with
    | Option.none => .ok Option.none
    | Option.some v =>
      match pyInt v with
      | Option.none => .error .valueError
      | Option.some n =>
        if n == 0 then .ok Option.none else .ok (Option.some (PyVal.i n))

/-- The `while result is None` ancestor-climbing loop of `tag_value`,
expressed over the chain `tag :: ancestors`. -/
def tagValueChain (chain : List Node) (name : String) (cast : Cast) :
    Except PyErr (Option PyVal) :=
  match chain with
  | [] => .ok Option.none
  | t :: rest =>
    match tagValueOwn t name cast with
    | .error e => .error e
    | .ok (Option.some v) => .ok (Option.some v)
    | .ok Option.none => tagValueChain rest name cast

/-- `tag_value(tag, attribute, inherited=True, cast=None)`, with the node's
ancestor chain made explicit. -/
def tag_value (t : Node) (anc : List Node) (attrName : String)
    (inherited : Bool) (cast : Cast) : Except PyErr (Option PyVal) :=
  if !inherited then tagValueOwn t attrName cast
  else tagValueChain (t :: anc) attrName cast

/-- Extraction of the `int`-cast value (the source only reads integer
results from `cast=int` lookups). -/
def asInt (v : Option PyVal) : Option Int :=
  match v with
  | Option.some (PyVal.i n) => Option.some n
  | _ => Option.none

/-- `tag_value(tag, attr, cast=int)` as an integer lookup. -/
def tagValueInt (t : Node) (anc : List Node) (attrName : String) :
    Except PyErr (Option Int) :=
  (tag_value t anc attrName true Cast.int).map asInt

/-- The bounding rectangle returned by `tag_rect`. -/
structure Rect where
  x : Option Int
  y : Option Int
  w : Option Int
  h : Option Int
deriving DecidableEq, Repr

/-- One step of the `tag_rect` loop body on a node: each of the four slots
is filled from `_tag_value(tag, _, int)` only if still empty (Python's
`result[i] or _tag_value(...)` short-circuits when the slot is truthy). -/
def rectStep (t : Node) (r : Rect) : Except PyErr Rect := do
  let upd : Option Int → String → Except PyErr (Option Int) := fun cur a =>
    match cur with
    | Option.some v => .ok (Option.some v)
    | Option.none => (tagValueOwn t a Cast.int).map asInt
  let x ← upd r.x "left"
  let y ← upd r.y "top"
  let w ← upd r.w "width"
  let h ← upd r.h "height"
  .ok ⟨x, y, w, h⟩

def rectDone (r : Rect) : Bool :=
  r.x.isSome && r.y.isSome && r.w.isSome && r.h.isSome

/-- The `while any(... is None ...)` loop of `tag_rect` over the ancestor
chain. -/
def tagRectChain (chain : List Node) (r : Rect) : Except PyErr Rect :=
  match chain with
  | [] => .ok r
  | t :: rest =>
    if rectDone r then .ok r
    else
      match rectStep t r with
      | .error e => .error e
      | .ok r' => tagRectChain rest r'

/-- `tag_rect(tag)`: resolve the four geometry attributes independently up
the ancestor chain. -/
def tag_rect (t : Node) (anc : List Node) : Except PyErr Rect :=
  tagRectChain (t :: anc) ⟨Option.none, Option.none, Option.none, Option.none⟩

/-! ## The shared extraction context

The Python `context` dictionary only ever holds the keys `"title-size"`,
`"date-start"` and `"date-size"`.  A field value `none` means the key is
absent (lookup raises `KeyError`); `some none` means the key is present with
value `None` (Python stores the result of a failed resolution), on which a
numeric comparison raises `TypeError`. -/

structure Ctx where
  titleSize : Option (Option Int)
  dateStart : Option (Option Int)
  dateSize : Option (Option Int)
deriving DecidableEq, Repr

def emptyCtx : Ctx := ⟨Option.none, Option.none, Option.none⟩

def setTitleSize (c : Ctx) (v : Option Int) : Ctx :=
  ⟨Option.some v, c.dateStart, c.dateSize⟩

def setDateStart (c : Ctx) (v : Option Int) : Ctx :=
  ⟨c.titleSize, Option.some v, c.dateSize⟩

def setDateSize (c : Ctx) (v : Option Int) : Ctx :=
  ⟨c.titleSize, c.dateStart, Option.some v⟩

/-- `context[key]` (raises `KeyError` when absent) followed by use in an
integer comparison (raises `TypeError` when the stored value is `None`). -/
def ctxIntValue (field : Option (Option Int)) : Except PyErr Int :=
  match field with
  | Option.none => .error .keyError
  | Option.some Option.none => .error .typeError
  | Option.some (Option.some v) => .ok v

/-! ## The title heuristic (`is_title`, `find_title`) -/

/-- `MIN_TITLE_FONT_SIZE` -/
def MIN_TITLE_FONT_SIZE : Int := 15

/-- `is_title(tag)`: a text span of page `"1"` whose own `font-size`
attribute (note: `tag.get`, not the inherited resolver) parses to at least
the minimum; a present but unparseable size raises `ValueError`. -/
def is_title (t : Node) : Except PyErr Bool :=
  if !(nodeName t == "span" && getAttr t "page" == Option.some "1") then
    .ok false
  else
    match getAttr t "font-size" with
    | Option.none => .ok false
    | Option.some s =>
      match pyInt s with
      | Option.none => .error .valueError
      | Option.some n => .ok (!(n < MIN_TITLE_FONT_SIZE))

/-- `soup.find(is_title)` followed by the context write and the normalized
text: recursion over the document-order element list. -/
def findTitleGo (ctx : Ctx) : List Elem → Except PyErr String × Ctx
  | [] => (.error .insufficient, ctx)
  | (t, anc) :: rest =>
    match is_title t with
    | .error e => (.error e, ctx)
    | .ok false => findTitleGo ctx rest
    | .ok true =>
      match tagValueInt t anc "font-size" with
      | .error e => (.error e, ctx)
      | .ok v => (.ok (normalize_str (nodeText t)), setTitleSize ctx v)

/-- `find_title(soup, context)`. -/
def find_title (soup : Soup) (ctx : Ctx) : Except PyErr String × Ctx :=
  findTitleGo ctx (soupElems soup)

/-! ## The dates heuristic (`parse_dates`, `find_dates`) -/

/-- Insertion into a Python `dict` modelled as an ordered association list:
assignment updates an existing key in place, otherwise appends. -/
def dictSet (m : List (String × String)) (k v : String) :
    List (String × String) :=
  match m with
  | [] => [(k, v)]
  | (k', v') :: rest =>
    if k' == k then (k', v) :: rest else (k', v') :: dictSet rest k v

def dictLookup (m : List (String × String)) (k : String) : Option String :=
  (m.find? (fun p => p.1 == k)).map (fun p => p.2)

/-- The phase a `/`-separated segment is classified into by its leading
keyword (default `"published"` for unrecognized segments). -/
def classifyPhase (c : String) : String :=
  let cLower := pyLower c
  if strStartsWith cLower "received" then "received"
  else if strStartsWith cLower "accepted" then "accepted"
  else if strStartsWith cLower "published" then "published"
  else "published"

/-- `parse_dates(content)`: split on `/`, strip each segment, classify it,
and store `c.split(":")[1].strip()` under the phase — the field between the
first and second `:` of the segment (`IndexError` when the segment contains
no `:`). -/
def parse_dates (content : String) : Except PyErr (List (String × String)) :=
  (pySplit content '/').foldlM
    (fun result seg =>
      let c := pyStrip seg
      let phase := classifyPhase c
      match (pySplit c ':').get? 1 with
      | Option.none => .error .indexError
      | Option.some v => .ok (dictSet result phase (pyStrip v)))
    []

/-- `DATE_KEYWORDS` -/
def DATE_KEYWORDS : List String :=
  ["received:", "accepted:", "published:", "published online:"]

/-- The stripped text content of a tag (`tag.text.strip()`). -/
def contentOf (t : Node) : String := pyStrip (nodeText t)

/-- The body of `find_dates` on one matching span: write the date anchors
into the context, select the matching `\n`-line of the content, and parse
it.  The context writes happen before the line selection and the parse, so
they survive a later failure. -/
def processDateSpan (t : Node) (anc : List Node) (ctx : Ctx) (kw : String) :
    Except PyErr (List (String × String)) × Ctx :=
  match tagValueInt t anc "top" with
  | .error e => (.error e, ctx)
  | .ok ds =>
    let ctx1 := setDateStart ctx ds
    match tagValueInt t anc "font-size" with
    | .error e => (.error e, ctx1)
    | .ok sz =>
      let ctx2 := setDateSize ctx1 sz
      let content := contentOf t
      match (pySplit content '\n').find?
          (fun it => kw == strTake (pyLower it) kw.data.length) with
      | Option.none => (.error .stopIteration, ctx2)
      | Option.some line =>
        match parse_dates line with
        | .error e => (.error e, ctx2)
        | .ok m => (.ok m, ctx2)

/-- The `soup.find_all("span", {"page": "1"})` loop of `find_dates`. -/
def findDatesGo (ctx : Ctx) : List Elem →
    Except PyErr (List (String × String)) × Ctx
  | [] => (.error .insufficient, ctx)
  | (t, anc) :: rest =>
    if nodeName t == "span" && getAttr t "page" == Option.some "1" then
      match DATE_KEYWORDS.find?
          (fun kw => strStartsWith (pyLower (contentOf t)) kw) with
      | Option.some kw => processDateSpan t anc ctx kw
      | Option.none => findDatesGo ctx rest
    else findDatesGo ctx rest

/-- `find_dates(soup, context)`. -/
def find_dates (soup : Soup) (ctx : Ctx) :
    Except PyErr (List (String × String)) × Ctx :=
  findDatesGo ctx (soupElems soup)

/-! ## The authors heuristic (`is_namelike`, `find_authors`) -/

/-- `is_namelike(tag, context)`.  Mirrors the source's order of checks and
short-circuits: the `top is None` test guards the `context["date-start"]`
lookup, and `size <= context["date-size"]` short-circuits the
`context["title-size"]` lookup. -/
def is_namelike (t : Node) (anc : List Node) (ctx : Ctx) :
    Except PyErr Bool :=
  if !(nodeName t == "span" && getAttr t "page" == Option.some "1") then
    .ok false
  else
    match tagValueInt t anc "top" with
    | .error e => .error e
    | .ok Option.none => .ok false
    | .ok (Option.some top) =>
      match ctxIntValue ctx.dateStart with
      | .error e => .error e
      | .ok ds =>
        if top > ds then .ok false
        else
          match tagValueInt t anc "font-size" with
          | .error e => .error e
          | .ok Option.none => .ok false
          | .ok (Option.some size) =>
            match ctxIntValue ctx.dateSize with
            | .error e => .error e
            | .ok dss =>
              if size ≤ dss then .ok false
              else
                match ctxIntValue ctx.titleSize with
                | .error e => .error e
                | .ok ts =>
                  if size ≥ ts then .ok false
                  else
                    let content := contentOf t
                    if content == "" then .ok false
                    else .ok (reAuthorMatch content)

/-- `soup.find_all(lambda t: is_namelike(t, context))`: the candidate
elements in document order (an exception in the predicate propagates). -/
def collectNamelike (ctx : Ctx) : List Elem → Except PyErr (List Elem)
  | [] => .ok []
  | (t, anc) :: rest =>
    match is_namelike t anc ctx with
    | .error e => .error e
    | .ok true =>
      match collectNamelike ctx rest with
      | .error e => .error e
      | .ok l => .ok ((t, anc) :: l)
    | .ok false => collectNamelike ctx rest

/-- The number of capture groups of `RE_AUTHOR_NAME` (the separator group,
the full-name group and the trailing-component group), which is what
`len(name.groups())` returns for any match. -/
def authorGroupCount : Nat := 3

/-- The per-candidate body of the `find_authors` loop: take the match
object (`AttributeError` if `search` found none — impossible for a
candidate, which already passed `match`), discard a literal `"Æ"`, and store
the candidate text with a leading separator run stripped. -/
def authorsLoop : List Elem → Except PyErr (List String)
  | [] => .ok []
  | (t, _) :: rest =>
    let stripped := contentOf t
    if stripped == "Æ" then authorsLoop rest
    else if !reAuthorSearch stripped then .error .attributeError
    else
      match authorsLoop rest with
      | .error e => .error e
      | .ok l =>
        if authorGroupCount ≥ 3 then .ok (stripPrefixSkip stripped :: l)
        else .ok l

/-- `find_authors(soup, context)`: the context is read but never written. -/
def find_authors (soup : Soup) (ctx : Ctx) :
    Except PyErr (List String) × Ctx :=
  match collectNamelike ctx (soupElems soup) with
  | .error e => (.error e, ctx)
  | .ok cands =>
    match authorsLoop cands with
    | .error e => (.error e, ctx)
    | .ok result =>
      if result.length > 0 then (.ok result, ctx)
      else (.error .insufficient, ctx)

/-! ## The structured-value flattener (`store_recursive`)

Values are the Python values the stages produce and the flattener
dispatches on by runtime type: `None`, strings, ints, lists, tuples and
dicts.  A field name is either a string or a tuple of strings (the
`PARSERS` keys).  The pandas row (`frame.loc[row, col]`, one row per
document) and the nested record (`structured`) are ordered string-keyed
maps.  The `row` index and the `parser_name` argument of the source only
select the single per-document row and decorate error messages, so they are
not modelled. -/

/-- Python `str(i)` for the nonnegative `enumerate` indices interpolated by
`f"{name}{separator}{i}"`: the decimal digit string. -/
def natChars (n : Nat) : List Char :=
  if _h : n < 10 then [Char.ofNat (48 + n)]
  else natChars (n / 10) ++ [Char.ofNat (48 + n % 10)]
termination_by n
decreasing_by simp_wf; omega

def pyStr (n : Nat) : String := String.mk (natChars n)

inductive Value where
  | none
  | vstr (s : String)
  | vint (n : Int)
  | list (vs : List Value)
  | tup (vs : List Value)
  | dict (kvs : List (String × Value))
deriving Repr

inductive PName where
  | str (s : String)
  | tup (names : List String)
deriving Repr

abbrev Frame := List (String × Value)
abbrev Record := List (String × Value)

/-- Assignment into an ordered string-keyed map (update in place or
append), the model of both `frame.loc[row, k] = v` and `structured[k] = v`. -/
def mapSet (m : List (String × Value)) (k : String) (v : Value) :
    List (String × Value) :=
  match m with
  | [] => [(k, v)]
  | (k', v') :: rest =>
    if k' == k then (k', v) :: rest else (k', v') :: mapSet rest k v

def mapGet (m : List (String × Value)) (k : String) : Option Value :=
  (m.find? (fun p => p.1 == k)).map (fun p => p.2)

/-- `value.get(entry, None)` on a dict value. -/
def dictGet (kvs : List (String × Value)) (k : String) : Value :=
  match kvs with
  | [] => Value.none
  | (k', v) :: rest => if k' == k then v else dictGet rest k

theorem dictGet_sizeOf_le (kvs : List (String × Value)) (k : String) :
    sizeOf (dictGet kvs k) ≤ sizeOf kvs := by
  induction kvs with
  | nil => simp [dictGet]
  | cons p rest ih =>
    match p with
    | (k', v) =>
      simp only [dictGet]
      split
      · simp; omega
      · have := ih; simp; omega

mutual
/-- `store_recursive(frame, structured, row, parser_name, name, value,
table_only, separator)`.  The result is the raised exception (if any)
together with the frame and record as mutated up to that point (Python
mutates them in place, so writes before an exception survive it). -/
def store_recursive (frame : Frame) (structured : Record) (name : PName)
    (value : Value) (tableOnly : Bool) (sep : String) :
    Except PyErr Unit × Frame × Record :=
  match value with
  | .none => (.ok (), frame, structured)
  | .tup vs => storeSeq frame structured name vs tableOnly sep
  | .list vs => storeSeq frame structured name vs tableOnly sep
  | .dict kvs =>
    match name with
    | .tup names => storeTupNames frame structured kvs names tableOnly sep
    | .str s =>
      match storeDictPairs frame structured s sep kvs with
      | (.error e, f', r') => (.error e, f', r')
      | (.ok _, f', r') =>
        (.ok (), f', if tableOnly then r' else mapSet r' s (Value.dict kvs))
  | .vstr v =>
    match name with
    | .str s =>
      (.ok (), mapSet frame s (Value.vstr v),
       if tableOnly then structured else mapSet structured s (Value.vstr v))
    | .tup _ => (.error .exception, frame, structured)
  | .vint v =>
    match name with
    | .str s =>
      (.ok (), mapSet frame s (Value.vint v),
       if tableOnly then structured else mapSet structured s (Value.vint v))
    | .tup _ => (.error .exception, frame, structured)
termination_by (sizeOf value, 0)

/-- The list branch (tuples are converted to lists first): assert the name
is a string, write the `<name><sep>length` column, flatten the elements
index by index (row-only), and finally store the whole sequence in the
record unless `table_only`. -/
def storeSeq (frame : Frame) (structured : Record) (name : PName)
    (vs : List Value) (tableOnly : Bool) (sep : String) :
    Except PyErr Unit × Frame × Record :=
  match name with
  | .tup _ => (.error .assertionError, frame, structured)
  | .str s =>
    let f1 := mapSet frame (s ++ sep ++ "length") (Value.vint vs.length)
    match storeElems f1 structured s sep 0 vs with
    | (.error e, f', r') => (.error e, f', r')
    | (.ok _, f', r') =>
      (.ok (), f', if tableOnly then r' else mapSet r' s (Value.list vs))
termination_by (sizeOf vs, 1)

/-- `for i, entry in enumerate(value): store_recursive(..., f"{name}{separator}{i}", entry, True, ...)` -/
def storeElems (frame : Frame) (structured : Record) (s : String)
    (sep : String) (i : Nat) (vs : List Value) :
    Except PyErr Unit × Frame × Record :=
  match vs with
  | [] => (.ok (), frame, structured)
  | v :: rest =>
    match store_recursive frame structured (.str (s ++ sep ++ pyStr i))
        v true sep with
    | (.error e, f', r') => (.error e, f', r')
    | (.ok _, f', r') => storeElems f' r' s sep (i + 1) rest
termination_by (sizeOf vs, 0)

/-- The dict branch under a tuple name: flatten `value.get(entry, None)`
under each declared name directly (row-only), and store it at that name in
the record unless `table_only`. -/
def storeTupNames (frame : Frame) (structured : Record)
    (kvs : List (String × Value)) (names : List String) (tableOnly : Bool)
    (sep : String) : Except PyErr Unit × Frame × Record :=
  match names with
  | [] => (.ok (), frame, structured)
  | n :: restNames =>
    match store_recursive frame structured (.str n) (dictGet kvs n) true
        sep with
    | (.error e, f', r') => (.error e, f', r')
    | (.ok _, f', r') =>
      let r2 := if tableOnly then r' else mapSet r' n (dictGet kvs n)
      storeTupNames f' r2 kvs restNames tableOnly sep
termination_by (sizeOf kvs, names.length + 1)
decreasing_by
  · rcases Nat.lt_or_ge (sizeOf (dictGet kvs n)) (sizeOf kvs) with h | h
    · exact Prod.Lex.left _ _ h
    · have heq : sizeOf (dictGet kvs n) = sizeOf kvs :=
        Nat.le_antisymm (dictGet_sizeOf_le kvs n) h
      rw [heq]
      exact Prod.Lex.right _ (by omega)
  · exact Prod.Lex.right _ (by simp only [List.length_cons]; omega)

/-- The dict branch under a string name:
`for entry in value: store_recursive(..., f"{name}{separator}{entry}",
value.get(entry, None), True, ...)` — iterating a dict's own keys, so
`value.get(entry)` is the paired value. -/
def storeDictPairs (frame : Frame) (structured : Record) (s : String)
    (sep : String) (kvs : List (String × Value)) :
    Except PyErr Unit × Frame × Record :=
  match kvs with
  | [] => (.ok (), frame, structured)
  | (k, v) :: rest =>
    match store_recursive frame structured (.str (s ++ sep ++ k)) v true
        sep with
    | (.error e, f', r') => (.error e, f', r')
    | (.ok _, f', r') => storeDictPairs f' r' s sep rest
termination_by (sizeOf kvs, 0)
end

/-! ## The per-document pipeline (`PARSERS`, the loop of `handle_sample`) -/

/-- A heuristic stage as invoked by the `handle_sample` loop:
`(soup, context) → result, with the context as mutated by the call`. -/
abbrev Stage := Soup → Ctx → Except PyErr Value × Ctx

def datesToValue (m : List (String × String)) : Value :=
  Value.dict (m.map (fun p => (p.1, Value.vstr p.2)))

def stageTitle : Stage := fun soup ctx =>
  let r := find_title soup ctx
  (r.1.map Value.vstr, r.2)

def stageDates : Stage := fun soup ctx =>
  let r := find_dates soup ctx
  (r.1.map datesToValue, r.2)

def stageAuthors : Stage := fun soup ctx =>
  let r := find_authors soup ctx
  (r.1.map (fun l => Value.list (l.map Value.vstr)), r.2)

/-- The `PARSERS` table: stage order and the field names (one tuple-valued
key for the dates stage). -/
def PARSERS : List (PName × Stage) := [
  (.str "title", stageTitle),
  (.tup ["received", "accepted", "published"], stageDates),
  (.str "authors", stageAuthors)]

/-- The stage loop of `handle_sample`: each iteration runs a stage and
stores its value; `except InsufficientParser` and the generic
`except Exception` both merely report and continue with the next stage, so
neither a stage failure nor a `store_recursive` failure aborts the loop
(partial context/frame/record mutations made before the exception are
kept). -/
def runStages (soup : Soup) : List (PName × Stage) → Frame → Record → Ctx →
    Frame × Record × Ctx
  | [], frame, structured, ctx => (frame, structured, ctx)
  | (name, f) :: rest, frame, structured, ctx =>
    let call := f soup ctx
    match call.1 with
    | .ok v =>
      let stored := store_recursive frame structured name v false "."
      runStages soup rest stored.2.1 stored.2.2 call.2
    | .error _ => runStages soup rest frame structured call.2

/-- The per-document core of `handle_sample`: fresh frame, record seeded
with the document key, fresh context, then the stage loop. -/
def handleSampleCore (key : String) (soup : Soup) : Frame × Record × Ctx :=
  runStages soup PARSERS [] [("document", Value.vstr (key ++ ".pdf"))] emptyCtx

/-! ## Lemmas about the attribute resolver -/

/-- The `cast=None` climb returns the value of the first link of the chain
that carries the attribute. -/
theorem tagValueChain_none_eq (chain : List Node) (a : String) :
    tagValueChain chain a Cast.none =
      .ok ((chain.findSome? (fun x => getAttr x a)).map PyVal.s) := by
  induction chain with
  | nil => simp [tagValueChain, List.findSome?]
  | cons t rest ih =>
    simp only [tagValueChain, tagValueOwn, List.findSome?]
    cases h : getAttr t a with
    | none => simpa [h] using ih
    | some v => simp [h]

/-- C8-side vocabulary: no `ValueError` can occur when resolving this
attribute on this node with `cast=int` (absent, or present and parseable). -/
def intCastOk (t : Node) (a : String) : Bool :=
  match getAttr t a with
  | Option.some s => (pyInt s).isSome
  | Option.none => true

/-- The value `_tag_value(tag, a, int)` contributes for one node: the `int`
cast of the node's own attribute if present, parseable and nonzero
(Python's `and/or` idiom maps a falsy `0` to `None`). -/
def castIntVal (t : Node) (a : String) : Option Int :=
  match getAttr t a with
  | Option.some s =>
    match pyInt s with
    | Option.some n => if n = 0 then Option.none else Option.some n
    | Option.none => Option.none
  | Option.none => Option.none

theorem tagValueOwn_int_eq (t : Node) (a : String)
    (h : intCastOk t a = true) :
    tagValueOwn t a Cast.int = .ok ((castIntVal t a).map PyVal.i) := by
  unfold tagValueOwn castIntVal
  cases hg : getAttr t a with
  | none => simp
  | some s =>
    unfold intCastOk at h
    rw [hg] at h
    cases hp : pyInt s with
    | none => simp [hp] at h
    | some n =>
      by_cases hz : n = 0 <;> simp [hp, hz]

/-- The `cast=int` climb returns the first non-falsy cast value along the
chain (when every present value parses). -/
theorem tagValueChain_int_eq (chain : List Node) (a : String)
    (h : ∀ x ∈ chain, intCastOk x a = true) :
    tagValueChain chain a Cast.int =
      .ok ((chain.findSome? (fun x => castIntVal x a)).map PyVal.i) := by
  induction chain with
  | nil => simp [tagValueChain, List.findSome?]
  | cons t rest ih =>
    have ht : intCastOk t a = true := h t (List.mem_cons_self t rest)
    have hrest : ∀ x ∈ rest, intCastOk x a = true :=
      fun x hx => h x (List.mem_cons_of_mem t hx)
    simp only [tagValueChain, tagValueOwn_int_eq t a ht, List.findSome?]
    cases hc : castIntVal t a with
    | none => simpa [hc] using ih hrest
    | some v => simp [hc]

theorem asInt_map_i (o : Option Int) : asInt (o.map PyVal.i) = o := by
  cases o <;> simp [asInt]

/-- `tag_value(tag, a, cast=int)` as an integer: first non-falsy cast value
on the chain `tag :: ancestors`. -/
theorem tagValueInt_eq (t : Node) (anc : List Node) (a : String)
    (h : ∀ x ∈ t :: anc, intCastOk x a = true) :
    tagValueInt t anc a =
      .ok ((t :: anc).findSome? (fun x => castIntVal x a)) := by
  unfold tagValueInt tag_value
  simp only [Bool.not_true, Bool.false_eq_true, if_false,
    tagValueChain_int_eq (t :: anc) a h, Except.map, asInt_map_i]

/-- First-defined choice on optional resolved values (`a or b` on values
that are `None` or truthy). -/
def optFirst (a b : Option Int) : Option Int :=
  match a with
  | Option.some v => Option.some v
  | Option.none => b

theorem optFirst_none_right (a : Option Int) : optFirst a Option.none = a := by
  cases a <;> simp [optFirst]

theorem optFirst_assoc (a b c : Option Int) :
    optFirst (optFirst a b) c = optFirst a (optFirst b c) := by
  cases a <;> simp [optFirst]

theorem rectStep_eq (t : Node) (r : Rect)
    (hl : intCastOk t "left" = true) (ht : intCastOk t "top" = true)
    (hw : intCastOk t "width" = true) (hh : intCastOk t "height" = true) :
    rectStep t r = .ok ⟨optFirst r.x (castIntVal t "left"),
      optFirst r.y (castIntVal t "top"), optFirst r.w (castIntVal t "width"),
      optFirst r.h (castIntVal t "height")⟩ := by
  rcases r with ⟨x, y, w, h⟩
  simp only [rectStep, tagValueOwn_int_eq t _ hl, tagValueOwn_int_eq t _ ht,
    tagValueOwn_int_eq t _ hw, tagValueOwn_int_eq t _ hh]
  cases x <;> cases y <;> cases w <;> cases h <;>
    simp [Except.map, asInt_map_i, optFirst, Except.bind, bind]

theorem findSome?_cons_optFirst (f : Node → Option Int) (t : Node)
    (rest : List Node) :
    List.findSome? f (t :: rest) = optFirst (f t) (List.findSome? f rest) := by
  cases h : f t <;> simp [List.findSome?, h, optFirst]

theorem tagRectChain_eq (chain : List Node) (r : Rect)
    (h : ∀ x ∈ chain, intCastOk x "left" = true ∧ intCastOk x "top" = true ∧
      intCastOk x "width" = true ∧ intCastOk x "height" = true) :
    tagRectChain chain r =
      .ok ⟨optFirst r.x (chain.findSome? (fun x => castIntVal x "left")),
        optFirst r.y (chain.findSome? (fun x => castIntVal x "top")),
        optFirst r.w (chain.findSome? (fun x => castIntVal x "width")),
        optFirst r.h (chain.findSome? (fun x => castIntVal x "height"))⟩ := by
  induction chain generalizing r with
  | nil =>
    simp [tagRectChain, List.findSome?, optFirst_none_right]
  | cons t rest ih =>
    obtain ⟨hl, ht, hw, hh⟩ := h t (List.mem_cons_self t rest)
    have hrest := fun x hx => h x (List.mem_cons_of_mem t hx)
    by_cases hdone : rectDone r = true
    · obtain ⟨hx, hy, hz, hq⟩ :
          r.x.isSome ∧ r.y.isSome ∧ r.w.isSome ∧ r.h.isSome := by
        simpa [rectDone, Bool.and_eq_true, and_assoc] using hdone
      obtain ⟨x, hx'⟩ := Option.isSome_iff_exists.mp hx
      obtain ⟨y, hy'⟩ := Option.isSome_iff_exists.mp hy
      obtain ⟨w, hw'⟩ := Option.isSome_iff_exists.mp hz
      obtain ⟨hgt, hh'⟩ := Option.isSome_iff_exists.mp hq
      rcases r with ⟨rx, ry, rw, rh⟩
      simp only at hx' hy' hw' hh'
      subst hx' hy' hw' hh'
      simp [tagRectChain, hdone, optFirst]
    · rw [show tagRectChain (t :: rest) r
          = (if rectDone r then .ok r
             else match rectStep t r with
               | .error e => .error e
               | .ok r2 => tagRectChain rest r2) from rfl]
      rw [if_neg hdone, rectStep_eq t r hl ht hw hh]
      show tagRectChain rest ⟨optFirst r.x (castIntVal t "left"),
        optFirst r.y (castIntVal t "top"), optFirst r.w (castIntVal t "width"),
        optFirst r.h (castIntVal t "height")⟩ = _
      rw [ih _ hrest]
      simp only [findSome?_cons_optFirst, optFirst_assoc]

/-- **C8.**  The attribute resolver (`tag_value` with its default
`cast=None`) returns the attribute's value if present on the node itself,
otherwise the value of the nearest ancestor that defines it, and an `.ok`
`none` — never an error — when no ancestor defines it. -/
theorem tag_value_nearest_ancestor (t : Node) (anc : List Node) (a : String) :
    tag_value t anc a true Cast.none =
      .ok (((t :: anc).findSome? (fun x => getAttr x a)).map PyVal.s) := by
  unfold tag_value
  simpa using tagValueChain_none_eq (t :: anc) a

theorem castIntVal_ne_some_zero (x : Node) (a : String) :
    castIntVal x a ≠ Option.some 0 := by
  unfold castIntVal
  cases hg : getAttr x a with
  | none => simp
  | some s =>
    cases hp : pyInt s with
    | none => simp [hp]
    | some n =>
      by_cases hz : n = 0 <;> simp [hp, hz]

/-- **C10.**  When the requested attribute is present on the node but its
`int`-cast value is falsy (`0`), the resolver treats it as absent: both
`tag_value` (with `cast=int`) and `tag_rect` skip the node and return the
nearest ancestor's non-falsy value (or `None` when there is none), and the
result is never the node's own `0`. -/
theorem falsy_cast_skips_node (t : Node) (anc : List Node) (s : String)
    (hown : getAttr t "top" = Option.some s) (hzero : pyInt s = Option.some 0)
    (hwfl : ∀ x ∈ t :: anc, intCastOk x "left" = true)
    (hwft : ∀ x ∈ t :: anc, intCastOk x "top" = true)
    (hwfw : ∀ x ∈ t :: anc, intCastOk x "width" = true)
    (hwfh : ∀ x ∈ t :: anc, intCastOk x "height" = true) :
    tagValueInt t anc "top" =
      .ok (anc.findSome? (fun x => castIntVal x "top")) ∧
    tag_rect t anc =
      .ok ⟨(t :: anc).findSome? (fun x => castIntVal x "left"),
        anc.findSome? (fun x => castIntVal x "top"),
        (t :: anc).findSome? (fun x => castIntVal x "width"),
        (t :: anc).findSome? (fun x => castIntVal x "height")⟩ ∧
    (∀ v, tagValueInt t anc "top" = .ok (Option.some v) → v ≠ 0) := by
  have hcast : castIntVal t "top" = Option.none := by
    simp [castIntVal, hown, hzero]
  have hskip : (t :: anc).findSome? (fun x => castIntVal x "top") =
      anc.findSome? (fun x => castIntVal x "top") := by
    rw [findSome?_cons_optFirst]
    simp [hcast, optFirst]
  have h1 : tagValueInt t anc "top" =
      .ok (anc.findSome? (fun x => castIntVal x "top")) := by
    rw [tagValueInt_eq t anc "top" hwft, hskip]
  refine ⟨h1, ?_, ?_⟩
  · have hall : ∀ x ∈ t :: anc, intCastOk x "left" = true ∧
        intCastOk x "top" = true ∧ intCastOk x "width" = true ∧
        intCastOk x "height" = true :=
      fun x hx => ⟨hwfl x hx, hwft x hx, hwfw x hx, hwfh x hx⟩
    unfold tag_rect
    rw [tagRectChain_eq (t :: anc) _ hall, hskip]
    rfl
  · intro v hv
    rw [h1] at hv
    have hfind : anc.findSome? (fun x => castIntVal x "top") =
        Option.some v := by
      simpa using hv
    obtain ⟨x, _, hx⟩ := List.exists_of_findSome?_eq_some hfind
    intro hv0
    subst hv0
    exact castIntVal_ne_some_zero x "top" hx

/-- Witness nodes for the resolver theorems: a span whose own `top` is the
falsy `"0"` under a div that resolves `top` to `7`. -/
def wSpanZero : Node := .tag "span" [("top", "0"), ("left", "3")] []

def wDivSeven : Node :=
  .tag "div" [("top", "7"), ("left", "4"), ("width", "5"), ("height", "6")] []

theorem falsy_cast_skips_node_witness :
    tagValueInt wSpanZero [wDivSeven] "top" = .ok (Option.some 7) ∧
    tag_rect wSpanZero [wDivSeven] =
      .ok ⟨Option.some 3, Option.some 7, Option.some 5, Option.some 6⟩ := by
  have h := falsy_cast_skips_node wSpanZero [wDivSeven] "0"
    (by rfl) (by rfl) (by decide) (by decide) (by decide) (by decide)
  refine ⟨?_, ?_⟩
  · rw [h.1]; rfl
  · rw [h.2.1]; rfl

/-! ## The title stage (C1) -/

/-- The qualification test `is_title` actually implements: a page-1 text
span whose **own** `font-size` attribute parses to at least the minimum. -/
def titleQualifies (t : Node) : Bool :=
  nodeName t == "span" && getAttr t "page" == Option.some "1" &&
    (match getAttr t "font-size" with
     | Option.some s =>
       match pyInt s with
       | Option.some n => decide (MIN_TITLE_FONT_SIZE ≤ n)
       | Option.none => false
     | Option.none => false)

/-- The qualification test the spec describes: a page-1 text span whose
**resolved** (inherited) font size is at least the minimum. -/
def titleQualifiesResolved (e : Elem) : Bool :=
  nodeName e.1 == "span" && getAttr e.1 "page" == Option.some "1" &&
    (match tagValueInt e.1 e.2 "font-size" with
     | .ok (Option.some n) => decide (MIN_TITLE_FONT_SIZE ≤ n)
     | _ => false)

theorem is_title_eq (t : Node) (h : intCastOk t "font-size" = true) :
    is_title t = .ok (titleQualifies t) := by
  unfold is_title titleQualifies
  by_cases hsp : (nodeName t == "span" && getAttr t "page" == Option.some "1") = true
  · simp only [hsp, Bool.not_true, Bool.false_eq_true, if_false, Bool.true_and]
    cases hg : getAttr t "font-size" with
    | none => simp
    | some s =>
      unfold intCastOk at h
      rw [hg] at h
      cases hp : pyInt s with
      | none => simp [hp] at h
      | some n =>
        rcases le_or_lt MIN_TITLE_FONT_SIZE n with hle | hlt
        · simp [hp, hle, not_lt.mpr hle]
        · simp [hp, hlt, not_le.mpr hlt]
  · simp only [Bool.not_eq_true] at hsp
    simp [hsp]

theorem tagValueInt_of_own (t : Node) (anc : List Node) (a s : String)
    (n : Int) (hs : getAttr t a = Option.some s) (hn : pyInt s = Option.some n)
    (hnz : n ≠ 0) : tagValueInt t anc a = .ok (Option.some n) := by
  unfold tagValueInt tag_value tagValueChain tagValueOwn
  simp [hs, hn, hnz, Except.map, asInt]

theorem findTitleGo_char (L : List Elem) (ctx : Ctx)
    (hwf : ∀ e ∈ L, intCastOk e.1 "font-size" = true) :
    (L.find? (fun e => titleQualifies e.1) = Option.none →
      findTitleGo ctx L = (.error .insufficient, ctx)) ∧
    (∀ t anc s n,
      L.find? (fun e => titleQualifies e.1) = Option.some (t, anc) →
      getAttr t "font-size" = Option.some s → pyInt s = Option.some n →
      findTitleGo ctx L =
        (.ok (normalize_str (nodeText t)), setTitleSize ctx (Option.some n))) := by
  induction L with
  | nil =>
    constructor
    · intro _; rfl
    · intro t anc s n hfind
      simp [List.find?] at hfind
  | cons e rest ih =>
    obtain ⟨t0, anc0⟩ := e
    have h0 : intCastOk t0 "font-size" = true :=
      hwf _ (List.mem_cons_self _ _)
    have hrest : ∀ x ∈ rest, intCastOk x.1 "font-size" = true :=
      fun x hx => hwf x (List.mem_cons_of_mem _ hx)
    have hit := is_title_eq t0 h0
    by_cases hq : titleQualifies t0 = true
    · have hfind : ((t0, anc0) :: rest).find? (fun e => titleQualifies e.1) =
          Option.some (t0, anc0) := List.find?_cons_of_pos _ hq
      constructor
      · intro hnone; rw [hfind] at hnone; exact absurd hnone (by simp)
      · intro t anc s n hfind' hs hn
        rw [hfind] at hfind'
        obtain ⟨rfl, rfl⟩ : t0 = t ∧ anc0 = anc := by
          simpa using hfind'
        have hnz : n ≠ 0 := by
          have h15 : MIN_TITLE_FONT_SIZE ≤ n := by
            unfold titleQualifies at hq
            simp only [hs, hn, Bool.and_eq_true, decide_eq_true_eq] at hq
            exact hq.2
          unfold MIN_TITLE_FONT_SIZE at h15
          omega
        rw [show findTitleGo ctx ((t0, anc0) :: rest) =
            (match is_title t0 with
             | .error e => (.error e, ctx)
             | .ok false => findTitleGo ctx rest
             | .ok true =>
               match tagValueInt t0 anc0 "font-size" with
               | .error e => (.error e, ctx)
               | .ok v => (.ok (normalize_str (nodeText t0)),
                   setTitleSize ctx v)) from rfl]
        rw [hit, hq, tagValueInt_of_own t0 anc0 "font-size" s n hs hn hnz]
    · have hfind : ((t0, anc0) :: rest).find? (fun e => titleQualifies e.1) =
          rest.find? (fun e => titleQualifies e.1) :=
        List.find?_cons_of_neg _ (by simpa using hq)
      have hstep : findTitleGo ctx ((t0, anc0) :: rest) =
          findTitleGo ctx rest := by
        rw [show findTitleGo ctx ((t0, anc0) :: rest) =
            (match is_title t0 with
             | .error e => (.error e, ctx)
             | .ok false => findTitleGo ctx rest
             | .ok true =>
               match tagValueInt t0 anc0 "font-size" with
               | .error e => (.error e, ctx)
               | .ok v => (.ok (normalize_str (nodeText t0)),
                   setTitleSize ctx v)) from rfl]
        rw [hit]
        simp only [Bool.not_eq_true] at hq
        rw [hq]
      rw [hstep, hfind]
      exact ih hrest

/-- **C1 (amended).**  For every styled tree whose `font-size` values parse
as integers, the title stage returns the whitespace-normalized text of the
first node in document order that is a text span, has page attribute `"1"`,
and carries its **own** `font-size` attribute at or above the minimum 15
(the inherited resolver is not consulted for this test), writing that font
size into the context as the title size; if no such node exists it raises
`InsufficientParser` and the context is unchanged. -/
theorem title_stage_characterization (soup : Soup) (ctx : Ctx)
    (hwf : ∀ e ∈ soupElems soup, intCastOk e.1 "font-size" = true) :
    ((soupElems soup).find? (fun e => titleQualifies e.1) = Option.none →
      find_title soup ctx = (.error .insufficient, ctx)) ∧
    (∀ t anc s n,
      (soupElems soup).find? (fun e => titleQualifies e.1) =
        Option.some (t, anc) →
      getAttr t "font-size" = Option.some s → pyInt s = Option.some n →
      find_title soup ctx =
        (.ok (normalize_str (nodeText t)), setTitleSize ctx (Option.some n))) :=
  findTitleGo_char (soupElems soup) ctx hwf

/-- Witness tree for C1: a below-threshold noise span followed by a
16-point span. -/
def wTitleSpan : Node :=
  .tag "span" [("page", "1"), ("font-size", "16")] [.text "Fast  Graph\nAlgorithms"]

def wTitleSoup : Soup := [.tag "div" [] [
  .tag "span" [("page", "1"), ("font-size", "10")] [.text "noise"],
  wTitleSpan]]

theorem title_stage_characterization_witness :
    find_title wTitleSoup emptyCtx =
      (.ok "Fast Graph Algorithms",
       ⟨Option.some (Option.some 16), Option.none, Option.none⟩) := by
  have h := (title_stage_characterization wTitleSoup emptyCtx
      (by decide)).2 wTitleSpan
      [Node.tag "div" [] [
        Node.tag "span" [("page", "1"), ("font-size", "10")] [Node.text "noise"],
        wTitleSpan]]
      "16" 16 (by rfl) (by rfl) (by rfl)
  rw [h]
  rfl

/-- **C1 (counterexample).**  A span with no `font-size` of its own whose
parent resolves `font-size` to 20: the claim's "resolved font size ≥ 15"
test qualifies it (so the claim demands its text, `"Hello World"`, as the
title), but `find_title` checks only the node's own attribute and raises
`InsufficientParser` with the context unchanged. -/
def titleCexSpan : Node := .tag "span" [("page", "1")] [.text "Hello World"]

def titleCexSoup : Soup :=
  [.tag "div" [("font-size", "20"), ("page", "1")] [titleCexSpan]]

theorem title_resolved_size_counterexample :
    (soupElems titleCexSoup).any titleQualifiesResolved = true ∧
    find_title titleCexSoup emptyCtx = (.error .insufficient, emptyCtx) ∧
    (.error .insufficient : Except PyErr String) ≠
      .ok (normalize_str (nodeText titleCexSpan)) := by
  refine ⟨by rfl, by rfl, by simp⟩

/-! ## The authors candidate filter (C3, C4) -/

/-- The candidate condition the code implements, in the claim's vocabulary:
a page-1 text span whose resolved vertical position is **at most** the date
anchor position (equality is accepted) and whose resolved font size lies
strictly between the date anchor's size and the title size, with nonempty
stripped text matching the author-name pattern. -/
def namelikeSpec (t : Node) (anc : List Node) (ds dss ts : Int) : Bool :=
  nodeName t == "span" && getAttr t "page" == Option.some "1" &&
  (match tagValueInt t anc "top" with
   | .ok (Option.some tv) => decide (tv ≤ ds)
   | _ => false) &&
  (match tagValueInt t anc "font-size" with
   | .ok (Option.some sv) => decide (dss < sv) && decide (sv < ts)
   | _ => false) &&
  !(contentOf t == "") && reAuthorMatch (contentOf t)

/-- **C3 (amended).**  With all three context anchors present, a span is an
authors candidate iff it is a page-1 text span whose resolved position is
less than **or equal to** the date anchor position and whose resolved font
size is strictly between the date anchor size and the title size and whose
stripped text is nonempty and name-like; in particular a span whose
position equals the anchor position *is* a candidate. -/
theorem is_namelike_characterization (t : Node) (anc : List Node) (ctx : Ctx)
    (ds dss ts : Int)
    (h1 : ctx.dateStart = Option.some (Option.some ds))
    (h2 : ctx.dateSize = Option.some (Option.some dss))
    (h3 : ctx.titleSize = Option.some (Option.some ts))
    (hwt : exceptOk (tagValueInt t anc "top") = true)
    (hws : exceptOk (tagValueInt t anc "font-size") = true) :
    is_namelike t anc ctx = .ok (namelikeSpec t anc ds dss ts) := by
  unfold is_namelike namelikeSpec
  by_cases hsp : (nodeName t == "span" && getAttr t "page" == Option.some "1")
      = true
  · simp only [hsp, Bool.not_true, Bool.false_eq_true, if_false, Bool.true_and]
    cases htop : tagValueInt t anc "top" with
    | error e => rw [htop] at hwt; simp [exceptOk] at hwt
    | ok topv =>
      cases topv with
      | none => simp [htop]
      | some tv =>
        rw [h1]
        simp only [ctxIntValue]
        by_cases hgt : tv > ds
        · simp [htop, hgt, not_le.mpr hgt]
        · have hle : tv ≤ ds := not_lt.mp hgt
          simp only [if_neg hgt, htop, decide_eq_true_eq, hle, decide_True,
            Bool.true_and]
          cases hsz : tagValueInt t anc "font-size" with
          | error e => rw [hsz] at hws; simp [exceptOk] at hws
          | ok szv =>
            cases szv with
            | none => simp [hsz]
            | some sv =>
              rw [h2]
              simp only [ctxIntValue]
              by_cases hles : sv ≤ dss
              · simp [hsz, hles, not_lt.mpr hles]
              · have hlt1 : dss < sv := not_le.mp hles
                rw [h3]
                simp only [if_neg hles, ctxIntValue]
                by_cases hge : sv ≥ ts
                · simp [hsz, hge, not_lt.mpr hge]
                · have hlt2 : sv < ts := not_le.mp hge
                  simp only [if_neg hge, hsz, hlt1, hlt2, decide_True,
                    Bool.true_and, Bool.and_self]
                  by_cases hc : contentOf t == ""
                  · simp [hc]
                  · simp only [Bool.not_eq_true] at hc
                    simp [hc]
  · simp only [Bool.not_eq_true] at hsp
    simp [hsp]

/-- Witness span and context for the candidate filter: position 50 strictly
above the anchor 100, size 12 strictly between 10 and 20. -/
def wNameSpan : Node :=
  .tag "span" [("page", "1"), ("top", "50"), ("font-size", "12")]
    [.text "J. Smith"]

def wNameCtx : Ctx :=
  ⟨Option.some (Option.some 20), Option.some (Option.some 100),
   Option.some (Option.some 10)⟩

theorem is_namelike_characterization_witness :
    is_namelike wNameSpan [] wNameCtx = .ok true := by
  have h := is_namelike_characterization wNameSpan [] wNameCtx 100 10 20
    (by rfl) (by rfl) (by rfl) (by rfl) (by rfl)
  rw [h]
  rfl

/-- **C3 (counterexample).**  A span whose resolved position is exactly the
date anchor position (100 = 100) *is* accepted by `is_namelike` (the code
rejects only `top > context["date-start"]`), contradicting the claim that a
span whose position equals the anchor is never a candidate. -/
def nameCexSpan : Node :=
  .tag "span" [("page", "1"), ("top", "100"), ("font-size", "12")]
    [.text "J. Smith"]

theorem authors_filter_equal_position_counterexample :
    tagValueInt nameCexSpan [] "top" = .ok (Option.some 100) ∧
    wNameCtx.dateStart = Option.some (Option.some 100) ∧
    is_namelike nameCexSpan [] wNameCtx = .ok true := by
  refine ⟨by rfl, by rfl, by rfl⟩

/-- A span that reaches the `context["date-start"]` lookup inside
`is_namelike`: a page-1 text span with a resolvable vertical position. -/
def reachesDateLookup (e : Elem) : Bool :=
  nodeName e.1 == "span" && getAttr e.1 "page" == Option.some "1" &&
  (match tagValueInt e.1 e.2 "top" with
   | .ok (Option.some _) => true
   | _ => false)

theorem is_namelike_missing_date (t : Node) (anc : List Node) (ctx : Ctx)
    (h : ctx.dateStart = Option.none)
    (hwf : exceptOk (tagValueInt t anc "top") = true) :
    is_namelike t anc ctx =
      if reachesDateLookup (t, anc) then .error .keyError else .ok false := by
  unfold is_namelike reachesDateLookup
  by_cases hsp : (nodeName t == "span" && getAttr t "page" == Option.some "1")
      = true
  · simp only [hsp, Bool.not_true, Bool.false_eq_true, if_false, Bool.true_and]
    cases htop : tagValueInt t anc "top" with
    | error e => rw [htop] at hwf; simp [exceptOk] at hwf
    | ok topv =>
      cases topv with
      | none => simp [htop]
      | some tv => rw [h]; simp [ctxIntValue, htop]
  · simp only [Bool.not_eq_true] at hsp
    simp [hsp]

theorem collectNamelike_missing_date (L : List Elem) (ctx : Ctx)
    (h : ctx.dateStart = Option.none)
    (hwf : ∀ e ∈ L, exceptOk (tagValueInt e.1 e.2 "top") = true) :
    collectNamelike ctx L =
      if L.any reachesDateLookup then .error .keyError else .ok [] := by
  induction L with
  | nil => rfl
  | cons e rest ih =>
    obtain ⟨t, anc⟩ := e
    have h0 := is_namelike_missing_date t anc ctx h
      (hwf _ (List.mem_cons_self _ _))
    have hrest := fun x hx => hwf x (List.mem_cons_of_mem _ hx)
    rw [show collectNamelike ctx ((t, anc) :: rest) =
        (match is_namelike t anc ctx with
         | .error e => .error e
         | .ok true =>
           match collectNamelike ctx rest with
           | .error e => .error e
           | .ok l => .ok ((t, anc) :: l)
         | .ok false => collectNamelike ctx rest) from rfl]
    rw [h0]
    by_cases hr : reachesDateLookup (t, anc) = true
    · simp [hr, List.any_cons]
    · simp only [Bool.not_eq_true] at hr
      simp only [hr, Bool.false_eq_true, if_false, List.any_cons,
        Bool.false_or]
      exact ih hrest

/-- **C4 (amended).**  Invoking the authors stage with a context lacking
the date-stage entries yields insufficient evidence only when no page-1
span has a resolvable vertical position; as soon as any candidate span
reaches the `context["date-start"]` lookup, the stage fails with a
`KeyError` instead.  Either way the context is unchanged. -/
theorem authors_missing_context_outcome (soup : Soup) (ctx : Ctx)
    (h : ctx.dateStart = Option.none)
    (hwf : ∀ e ∈ soupElems soup, exceptOk (tagValueInt e.1 e.2 "top") = true) :
    find_authors soup ctx =
      (.error (if (soupElems soup).any reachesDateLookup then .keyError
               else .insufficient), ctx) := by
  unfold find_authors
  rw [collectNamelike_missing_date (soupElems soup) ctx h hwf]
  by_cases ha : (soupElems soup).any reachesDateLookup = true
  · simp [ha]
  · simp only [Bool.not_eq_true] at ha
    simp [ha, authorsLoop]

/-- Witness soups for C4: one where a page-1 span reaches the context
lookup (`KeyError`), one with no resolvable position (insufficient). -/
def wAuthorsSoupKey : Soup :=
  [.tag "span" [("page", "1"), ("top", "10"), ("font-size", "12")]
    [.text "J. Smith"]]

def wAuthorsSoupIns : Soup := [.tag "span" [("page", "1")] [.text "J. Smith"]]

def wTitleOnlyCtx : Ctx :=
  ⟨Option.some (Option.some 20), Option.none, Option.none⟩

theorem authors_missing_context_outcome_witness :
    find_authors wAuthorsSoupKey wTitleOnlyCtx =
      (.error .keyError, wTitleOnlyCtx) ∧
    find_authors wAuthorsSoupIns wTitleOnlyCtx =
      (.error .insufficient, wTitleOnlyCtx) := by
  constructor
  · have h := authors_missing_context_outcome wAuthorsSoupKey wTitleOnlyCtx
      (by rfl) (by decide)
    rw [h]; rfl
  · have h := authors_missing_context_outcome wAuthorsSoupIns wTitleOnlyCtx
      (by rfl) (by decide)
    rw [h]; rfl

/-- **C4 (counterexample).**  With the date-stage entries withheld, a tree
containing a page-1 span with a resolvable position makes the authors stage
fail with `KeyError` — not the insufficient-evidence outcome the claim
promises for every styled tree. -/
theorem authors_without_dates_counterexample :
    find_authors wAuthorsSoupKey wTitleOnlyCtx =
      (.error .keyError, wTitleOnlyCtx) ∧
    PyErr.keyError ≠ PyErr.insufficient := by
  refine ⟨by rfl, by decide⟩

/-! ## The author-name matcher (C5) -/

theorem nameTail_all_nc (cs : List Char)
    (h : cs.all isNameComponentChar = true) : nameTail cs = false := by
  induction cs with
  | nil => rfl
  | cons c rest ih =>
    simp only [List.all_cons, Bool.and_eq_true] at h
    simp [nameTail, h.1, ih h.2]

/-- A string consisting solely of name-component characters (no space, so a
single token) is never matched by `RE_AUTHOR_NAME`: the pattern needs at
least two space-separated components. -/
theorem authorMatch_single_token_false (cs : List Char)
    (h : cs.all isNameComponentChar = true) : authorMatchAt cs = false := by
  have hnc : ∀ c ∈ cs, isNameComponentChar c = true := by
    simpa [List.all_eq_true] using h
  have hname : nameMatchAt cs = false := by
    cases cs with
    | nil => rfl
    | cons c rest =>
      simp only [List.all_cons, Bool.and_eq_true] at h
      simp [nameMatchAt, nameTail_all_nc rest h.2]
  cases cs with
  | nil => rfl
  | cons c rest =>
    cases rest with
    | nil => exact hname
    | cons d rest' =>
      have hc : isNameComponentChar c = true :=
        hnc c (List.mem_cons_self _ _)
      have hc1 : (c == ',') = false := by
        cases hcc : c == ',' with
        | false => rfl
        | true =>
          have hceq : c = ',' := by simpa using hcc
          rw [hceq] at hc
          exact absurd hc (by decide)
      have hc2 : (c == '·') = false := by
        cases hcc : c == '·' with
        | false => rfl
        | true =>
          have hceq : c = '·' := by simpa using hcc
          rw [hceq] at hc
          exact absurd hc (by decide)
      have hcomma : (c == ',' || c == '·') = false := by
        rw [hc1, hc2]; rfl
      simp [authorMatchAt, hcomma, hname]

/-- **C5.**  The author-name matcher accepts `"J. Smith"` and
`"Maria García-López"`, rejects the single token `"Smith"` — and in general
any single run of name-component characters, since a full match needs at
least two space-separated components — and `find_authors` strips one
leading separator run from a stored candidate, storing `", A. Author"` as
`"A. Author"`. -/
theorem author_name_matcher_examples :
    reAuthorMatch "J. Smith" = true ∧
    reAuthorMatch "Maria García-López" = true ∧
    reAuthorMatch "Smith" = false ∧
    (∀ cs : List Char, cs.all isNameComponentChar = true →
      authorMatchAt cs = false) ∧
    stripPrefixSkip ", A. Author" = "A. Author" ∧
    (find_authors
      [.tag "span" [("page", "1"), ("top", "50"), ("font-size", "12")]
        [.text ", A. Author"]] wNameCtx).1 = .ok ["A. Author"] := by
  refine ⟨by rfl, by rfl, by rfl, authorMatch_single_token_false, by rfl,
    by rfl⟩

theorem author_name_matcher_examples_witness :
    authorMatchAt "Smith".data = false :=
  author_name_matcher_examples.2.2.2.1 "Smith".data (by rfl)

/-! ## The dates stage (C2, C9) -/

theorem dictLookup_dictSet (m : List (String × String)) (k v p : String) :
    dictLookup (dictSet m k v) p =
      if p = k then Option.some v else dictLookup m p := by
  induction m with
  | nil =>
    by_cases hp : p = k
    · subst hp; simp [dictSet, dictLookup, List.find?]
    · have hkp : (k == p) = false := by
        simp only [beq_eq_false_iff_ne]
        exact Ne.symm hp
      simp [dictSet, dictLookup, List.find?, hkp, hp]
  | cons q rest ih =>
    obtain ⟨k', v'⟩ := q
    by_cases hk : k' = k
    · subst hk
      by_cases hp : p = k'
      · subst hp
        simp [dictSet, dictLookup, List.find?]
      · have hkp : (k' == p) = false := by
          simp only [beq_eq_false_iff_ne]
          exact Ne.symm hp
        simp [dictSet, dictLookup, List.find?, hkp, hp]
    · have hkk : (k' == k) = false := by
        simp only [beq_eq_false_iff_ne]
        exact hk
      by_cases hp : p = k'
      · subst hp
        simp [dictSet, dictLookup, List.find?, hkk, hk]
      · have hkp : (k' == p) = false := by
          simp only [beq_eq_false_iff_ne]
          exact Ne.symm hp
        simp only [dictSet, hkk, Bool.false_eq_true, if_false]
        simp only [dictLookup, List.find?, hkp]
        have ihx := ih
        simp only [dictLookup] at ihx
        exact ihx

/-- The stripped text between the first and second `:` of a segment — what
`c.split(":")[1].strip()` extracts. -/
def extractDate (c : String) : Option String :=
  ((pySplit c ':').get? 1).map pyStrip

theorem parse_dates_fold (segs : List String)
    (h : ∀ seg ∈ segs, 2 ≤ (pySplit (pyStrip seg) ':').length) :
    ∀ m0 : List (String × String), ∃ m,
      segs.foldlM (fun result seg =>
        let c := pyStrip seg
        let phase := classifyPhase c
        match (pySplit c ':').get? 1 with
        | Option.none => (.error .indexError : Except PyErr (List (String × String)))
        | Option.some v => .ok (dictSet result phase (pyStrip v))) m0 = .ok m ∧
      ∀ p, dictLookup m p =
        (match ((segs.map pyStrip).filter
            (fun c => classifyPhase c == p)).getLast? with
         | Option.some c => extractDate c
         | Option.none => dictLookup m0 p) := by
  induction segs with
  | nil =>
    intro m0
    exact ⟨m0, rfl, fun p => by simp⟩
  | cons seg rest ih =>
    intro m0
    have hseg := h seg (List.mem_cons_self _ _)
    have hrest := fun x hx => h x (List.mem_cons_of_mem _ hx)
    obtain ⟨b, hb⟩ : ∃ b, (pySplit (pyStrip seg) ':').get? 1 =
        Option.some b := by
      rcases hsp : pySplit (pyStrip seg) ':' with _ | ⟨a, _ | ⟨b, tl⟩⟩ <;>
        rw [hsp] at hseg
      · simp at hseg
      · simp at hseg
      · exact ⟨b, rfl⟩
    obtain ⟨m, hm, hp⟩ := ih hrest
      (dictSet m0 (classifyPhase (pyStrip seg)) (pyStrip b))
    refine ⟨m, ?_, ?_⟩
    · rw [List.foldlM_cons]
      simp only [hb]
      exact hm
    · intro p
      rw [hp p, List.map_cons]
      by_cases hcp : (classifyPhase (pyStrip seg) == p) = true
      · have hcp' : classifyPhase (pyStrip seg) = p := by simpa using hcp
        rw [show ((pyStrip seg :: rest.map pyStrip).filter
              (fun c => classifyPhase c == p))
            = pyStrip seg :: ((rest.map pyStrip).filter
              (fun c => classifyPhase c == p)) from by
            simp [List.filter_cons, hcp]]
        rw [List.getLast?_cons]
        cases hfr : (((rest.map pyStrip).filter
            (fun c => classifyPhase c == p))).getLast? with
        | some c' => simp [hfr]
        | none =>
          simp only [hfr, Option.getD_none]
          rw [dictLookup_dictSet]
          have hb' : (pySplit (pyStrip seg) ':')[1]? = Option.some b := by
            rw [← List.get?_eq_getElem?]
            exact hb
          simp [extractDate, hb', hcp']
      · rw [show ((pyStrip seg :: rest.map pyStrip).filter
              (fun c => classifyPhase c == p))
            = ((rest.map pyStrip).filter
              (fun c => classifyPhase c == p)) from by
            simp only [Bool.not_eq_true] at hcp
            simp [List.filter_cons, hcp]]
        cases hfr : (((rest.map pyStrip).filter
            (fun c => classifyPhase c == p))).getLast? with
        | some c' => simp [hfr]
        | none =>
          simp only [hfr]
          rw [dictLookup_dictSet]
          have : ¬ p = classifyPhase (pyStrip seg) := by
            intro he
            exact absurd (by simpa using he.symm) hcp
          simp [this]

/-- Witness soup for the dates stage: one page-1 span carrying the claim's
example line, with resolvable position 80 and font size 9. -/
def wDatesSoup : Soup :=
  [.tag "span" [("page", "1"), ("top", "80"), ("font-size", "9")]
    [.text "Received: 12 Jan 2020 / Accepted: 3 Mar 2020 / Published: 10 Apr 2020"]]

/-- **C2 (amended).**  The dates parser splits the line on `/`, strips and
classifies each segment by its leading keyword (default `published`), and
maps the phase of each segment to the trimmed text **between the first and
second `:`** of that segment (`c.split(":")[1]`), the phase of the last
segment winning on repeats; on the claim's example line it produces exactly
the claimed mapping, and the full stage also records the span's position
and font size in the context. -/
theorem parse_dates_characterization :
    (∀ line : String,
      (∀ seg ∈ pySplit line '/', 2 ≤ (pySplit (pyStrip seg) ':').length) →
      ∃ m, parse_dates line = .ok m ∧ ∀ p, dictLookup m p =
        (match (((pySplit line '/').map pyStrip).filter
            (fun c => classifyPhase c == p)).getLast? with
         | Option.some c => extractDate c
         | Option.none => Option.none)) ∧
    parse_dates
        "Received: 12 Jan 2020 / Accepted: 3 Mar 2020 / Published: 10 Apr 2020" =
      .ok [("received", "12 Jan 2020"), ("accepted", "3 Mar 2020"),
           ("published", "10 Apr 2020")] ∧
    find_dates wDatesSoup emptyCtx =
      (.ok [("received", "12 Jan 2020"), ("accepted", "3 Mar 2020"),
            ("published", "10 Apr 2020")],
       ⟨Option.none, Option.some (Option.some 80), Option.some (Option.some 9)⟩) := by
  refine ⟨?_, by rfl, by rfl⟩
  intro line hline
  obtain ⟨m, hm, hp⟩ := parse_dates_fold (pySplit line '/') hline []
  refine ⟨m, hm, fun p => ?_⟩
  rw [hp p]
  cases hfr : ((((pySplit line '/').map pyStrip).filter
      (fun c => classifyPhase c == p))).getLast? with
  | some c => simp [hfr]
  | none => simp [hfr, dictLookup, List.find?]

theorem parse_dates_characterization_witness :
    ∃ m, parse_dates "Received: 5 May / Received: 6 Jun" = .ok m ∧
      dictLookup m "received" = Option.some "6 Jun" := by
  obtain ⟨m, hm, hp⟩ := parse_dates_characterization.1
    "Received: 5 May / Received: 6 Jun" (by decide)
  refine ⟨m, hm, ?_⟩
  rw [hp "received"]
  rfl

/-- **C2 (counterexample).**  On the segment `"Received: 12:30"` the code
stores `"12"` — the field between the first and second `:` — not
`"12:30"`, the value after the first `:` that the claim prescribes. -/
theorem dates_after_first_colon_counterexample :
    parse_dates "Received: 12:30" = .ok [("received", "12")] ∧
    parse_dates "Received: 12:30" ≠ .ok [("received", "12:30")] := by
  constructor
  · rfl
  · intro h
    rw [show parse_dates "Received: 12:30" = .ok [("received", "12")] from
      rfl] at h
    simp at h

theorem findTitleGo_error_ctx (L : List Elem) (ctx : Ctx)
    (h : exceptOk (findTitleGo ctx L).1 = false) :
    (findTitleGo ctx L).2 = ctx := by
  induction L with
  | nil => rfl
  | cons e rest ih =>
    obtain ⟨t, anc⟩ := e
    rw [show findTitleGo ctx ((t, anc) :: rest) =
        (match is_title t with
         | .error e => (.error e, ctx)
         | .ok false => findTitleGo ctx rest
         | .ok true =>
           match tagValueInt t anc "font-size" with
           | .error e => (.error e, ctx)
           | .ok v => (.ok (normalize_str (nodeText t)),
               setTitleSize ctx v)) from rfl] at h ⊢
    cases hit : is_title t with
    | error e => rfl
    | ok b =>
      cases b with
      | false =>
        rw [hit] at h
        exact ih h
      | true =>
        rw [hit] at h
        cases htv : tagValueInt t anc "font-size" with
        | error e => rfl
        | ok v =>
          rw [htv] at h
          simp [exceptOk] at h

/-- The soup of the C9 counterexample: the span matches the `received:`
keyword, so the stage records the date anchors, and then `parse_dates`
fails with `IndexError` on the colon-less segment `"oops"`. -/
def wDatesCexSoup : Soup :=
  [.tag "span" [("page", "1"), ("top", "80"), ("font-size", "9")]
    [.text "Received: 1 Jan / oops"]]

/-- **C9 (amended).**  The title stage mutates the context only on
success, and the authors stage never mutates it; the dates stage, however,
writes the date anchor entries as soon as a keyword span matches, before
parsing the line, so when the parse then fails (a `/`-segment without a
`:`) the context retains the date anchor position and size. -/
theorem context_mutation_discipline :
    (∀ soup ctx, exceptOk (find_title soup ctx).1 = false →
      (find_title soup ctx).2 = ctx) ∧
    (∀ soup ctx, (find_authors soup ctx).2 = ctx) ∧
    find_dates wDatesCexSoup emptyCtx =
      (.error .indexError,
       ⟨Option.none, Option.some (Option.some 80),
        Option.some (Option.some 9)⟩) := by
  refine ⟨?_, ?_, by rfl⟩
  · intro soup ctx h
    exact findTitleGo_error_ctx (soupElems soup) ctx h
  · intro soup ctx
    unfold find_authors
    cases collectNamelike ctx (soupElems soup) with
    | error e => rfl
    | ok cands =>
      show (match authorsLoop cands with
        | Except.error e => ((Except.error e : Except PyErr (List String)), ctx)
        | Except.ok result =>
          if result.length > 0 then (Except.ok result, ctx)
          else (Except.error PyErr.insufficient, ctx)).2 = ctx
      cases authorsLoop cands with
      | error e => rfl
      | ok result =>
        by_cases h : result.length > 0
        · simp [h]
        · simp [h]

theorem context_mutation_discipline_witness :
    exceptOk (find_title ([] : Soup) emptyCtx).1 = false ∧
    (find_title ([] : Soup) emptyCtx).2 = emptyCtx ∧
    (find_authors ([] : Soup) emptyCtx).2 = emptyCtx :=
  ⟨by rfl, context_mutation_discipline.1 [] emptyCtx (by rfl),
   context_mutation_discipline.2.1 [] emptyCtx⟩

/-- **C9 (counterexample).**  When the dates stage fails *after* matching a
keyword span (the matched line's segment `"oops"` has no `:`), the context
does contain the date anchor entries — it is not left unchanged as the
claim asserts. -/
theorem dates_context_on_failure_counterexample :
    (find_dates wDatesCexSoup emptyCtx).1 = .error .indexError ∧
    (find_dates wDatesCexSoup emptyCtx).2.dateStart =
      Option.some (Option.some 80) ∧
    (find_dates wDatesCexSoup emptyCtx).2 ≠ emptyCtx := by
  refine ⟨by rfl, by rfl, ?_⟩
  intro h
  rw [show (find_dates wDatesCexSoup emptyCtx).2 =
      (⟨Option.none, Option.some (Option.some 80),
        Option.some (Option.some 9)⟩ : Ctx) from rfl] at h
  simp [emptyCtx, Ctx.mk.injEq] at h

/-! ## The flattener contract violation and the pipeline (C7) -/

/-- A non-composite (scalar) value: a string or an int. -/
def isScalarValue : Value → Bool
  | .vstr _ => true
  | .vint _ => true
  | _ => false

/-- **C7 (amended).**  Given a scalar value under a tuple name the
flattener raises an `Exception` and leaves the frame and record untouched —
but the error *is* caught: the `handle_sample` stage loop treats it like
any other stage failure, so the per-document run does not abort and
continues with the remaining stages (with the failing stage's context
mutations kept). -/
theorem flattener_violation_caught :
    (∀ (frame : Frame) (rec : Record) (names : List String) (v : Value)
        (tableOnly : Bool) (sep : String), isScalarValue v = true →
      store_recursive frame rec (.tup names) v tableOnly sep =
        (.error .exception, frame, rec)) ∧
    (∀ (soup : Soup) (frame : Frame) (rec : Record) (ctx : Ctx)
        (names : List String) (rest : List (PName × Stage)) (f : Stage)
        (v : Value), isScalarValue v = true → (f soup ctx).1 = .ok v →
      runStages soup ((PName.tup names, f) :: rest) frame rec ctx =
        runStages soup rest frame rec (f soup ctx).2) := by
  have hstore : ∀ (frame : Frame) (rec : Record) (names : List String)
      (v : Value) (tableOnly : Bool) (sep : String), isScalarValue v = true →
      store_recursive frame rec (.tup names) v tableOnly sep =
        (.error .exception, frame, rec) := by
    intro frame rec names v tableOnly sep hv
    cases v with
    | vstr s => simp [store_recursive]
    | vint n => simp [store_recursive]
    | none => simp [isScalarValue] at hv
    | list vs => simp [isScalarValue] at hv
    | tup vs => simp [isScalarValue] at hv
    | dict kvs => simp [isScalarValue] at hv
  refine ⟨hstore, ?_⟩
  intro soup frame rec ctx names rest f v hv hf
  show (match (f soup ctx).1 with
    | .ok v0 =>
      runStages soup rest
        (store_recursive frame rec (PName.tup names) v0 false ".").2.1
        (store_recursive frame rec (PName.tup names) v0 false ".").2.2
        (f soup ctx).2
    | .error _ => runStages soup rest frame rec (f soup ctx).2) = _
  rw [hf]
  show runStages soup rest
    (store_recursive frame rec (PName.tup names) v false ".").2.1
    (store_recursive frame rec (PName.tup names) v false ".").2.2
    (f soup ctx).2 = _
  rw [hstore frame rec names v false "." hv]

/-- Witness stages for C7: the first produces a scalar under the tuple
name (the contract violation), the second must still run. -/
def wBadStage : Stage := fun _ c => (.ok (Value.vstr "x"), c)

def wAfterStage : Stage := fun _ c => (.ok (Value.vstr "done"), c)

theorem flattener_violation_caught_witness :
    runStages [] [(PName.tup ["a", "b"], wBadStage),
        (PName.str "marker", wAfterStage)] [] [] emptyCtx =
      ([("marker", Value.vstr "done")], [("marker", Value.vstr "done")],
       emptyCtx) := by
  rw [flattener_violation_caught.2 [] [] [] emptyCtx ["a", "b"]
    [(PName.str "marker", wAfterStage)] wBadStage (Value.vstr "x")
    (by rfl) (by rfl)]
  simp [runStages, wBadStage, wAfterStage, store_recursive, mapSet]

/-- **C7 (counterexample).**  The contract violation raises an error of
the generic `Exception` kind, and a pipeline run in which a stage commits
it does *not* abort: the next stage still executes and its field is
recorded.  This contradicts the claim that the error is not caught and the
per-document run aborts. -/
theorem flattener_violation_not_fatal_counterexample :
    (store_recursive [] [] (PName.tup ["a", "b"]) (Value.vstr "x")
      false ".").1 = .error .exception ∧
    runStages [] [(PName.tup ["a", "b"], wBadStage),
        (PName.str "marker", wAfterStage)] [] [] emptyCtx =
      ([("marker", Value.vstr "done")], [("marker", Value.vstr "done")],
       emptyCtx) := by
  constructor
  · simp [store_recursive]
  · simp [runStages, wBadStage, wAfterStage, store_recursive, mapSet]

/-! ## Lemmas about the flattener (C6) -/

theorem mapGet_mapSet_self (m : List (String × Value)) (k : String)
    (v : Value) : mapGet (mapSet m k v) k = Option.some v := by
  induction m with
  | nil => simp [mapSet, mapGet, List.find?]
  | cons q rest ih =>
    obtain ⟨k', v'⟩ := q
    by_cases hk : k' = k
    · subst hk; simp [mapSet, mapGet, List.find?]
    · have hkk : (k' == k) = false := by
        simp only [beq_eq_false_iff_ne]; exact hk
      simp only [mapSet, hkk, Bool.false_eq_true, if_false]
      simp only [mapGet, List.find?, hkk] at ih ⊢
      exact ih

theorem mapGet_mapSet_ne (m : List (String × Value)) (kw k : String)
    (v : Value) (h : kw ≠ k) : mapGet (mapSet m kw v) k = mapGet m k := by
  induction m with
  | nil =>
    have hkk : (kw == k) = false := by
      simp only [beq_eq_false_iff_ne]; exact h
    simp [mapSet, mapGet, List.find?, hkk]
  | cons q rest ih =>
    obtain ⟨k', v'⟩ := q
    by_cases hk : k' = kw
    · subst hk
      have hkn : (k' == k) = false := by
        simp only [beq_eq_false_iff_ne]; exact h
      simp [mapSet, mapGet, List.find?, hkn]
    · have hkk : (k' == kw) = false := by
        simp only [beq_eq_false_iff_ne]; exact hk
      simp only [mapSet, hkk, Bool.false_eq_true, if_false]
      simp only [mapGet, List.find?] at ih ⊢
      cases hkp : (k' == k) <;> simp [hkp, ih]

/-- If the written key extends `n` but `n` is not a prefix of the queried
key, the write does not affect the query. -/
theorem mapGet_mapSet_of_extends (m : List (String × Value)) (n kw k : String)
    (v : Value) (hpre : n.data <+: kw.data) (hk : ¬ n.data <+: k.data) :
    mapGet (mapSet m kw v) k = mapGet m k := by
  refine mapGet_mapSet_ne m kw k v ?_
  intro he
  subst he
  exact hk hpre

theorem str_prefix_append (s t : String) : s.data <+: (s ++ t).data := by
  rw [String.data_append]
  exact List.prefix_append _ _

theorem not_prefix_self (s k : String) (h : ¬ s.data <+: k.data) : s ≠ k := by
  intro he
  subst he
  exact h (List.prefix_refl _)

/-- The decimal digit string of an index starts with a digit. -/
theorem natChars_head_digit (n : Nat) :
    ∃ c cs, natChars n = c :: cs ∧ c.isDigit = true := by
  induction n using natChars.induct with
  | case1 n h =>
    refine ⟨Char.ofNat (48 + n), [], ?_, ?_⟩
    · rw [natChars]; simp [h]
    · interval_cases n <;> decide
  | case2 n h ih =>
    obtain ⟨c, cs, hcs, hd⟩ := ih
    refine ⟨c, cs ++ [Char.ofNat (48 + n % 10)], ?_, hd⟩
    rw [natChars]
    simp [h, hcs]

/-- An element-index column name `s ++ "." ++ str(j)` is never a prefix of
the length column name `s ++ "." ++ "length"`. -/
theorem index_not_prefix_length (s : String) (j : Nat) :
    ¬ ((s ++ "." ++ pyStr j).data <+: (s ++ "." ++ "length").data) := by
  intro h
  rw [String.data_append, String.data_append, String.data_append,
    String.data_append, List.append_assoc, List.append_assoc] at h
  rw [List.prefix_append_right_inj] at h
  rw [List.prefix_append_right_inj] at h
  obtain ⟨c, cs, hcs, hd⟩ := natChars_head_digit j
  rw [show (pyStr j).data = natChars j from rfl, hcs] at h
  rw [show ("length" : String).data = 'l' :: "ength".data from rfl] at h
  rw [List.cons_prefix_cons] at h
  rw [h.1] at hd
  exact absurd hd (by decide)

/-- Flattening with `table_only=True` (as used for all recursive calls)
never touches the nested record; at the top of the mutual clique,
`store_recursive` writes the record only when `table_only` is false. -/
theorem store_record_invariance :
    (∀ (frame : Frame) (structured : Record) (name : PName) (value : Value)
        (tableOnly : Bool) (sep : String), tableOnly = true →
      (store_recursive frame structured name value tableOnly sep).2.2 =
        structured) ∧
    (∀ (frame : Frame) (structured : Record) (s sep : String)
        (kvs : List (String × Value)),
      (storeDictPairs frame structured s sep kvs).2.2 = structured) ∧
    (∀ (frame : Frame) (structured : Record) (kvs : List (String × Value))
        (names : List String) (tableOnly : Bool) (sep : String),
      tableOnly = true →
      (storeTupNames frame structured kvs names tableOnly sep).2.2 =
        structured) ∧
    (∀ (frame : Frame) (structured : Record) (name : PName) (vs : List Value)
        (tableOnly : Bool) (sep : String), tableOnly = true →
      (storeSeq frame structured name vs tableOnly sep).2.2 = structured) ∧
    (∀ (frame : Frame) (structured : Record) (s sep : String) (i : Nat)
        (vs : List Value),
      (storeElems frame structured s sep i vs).2.2 = structured) := by
  apply store_recursive.mutual_induct <;> intros <;>
    try (first
      | rfl
      | simp_all [store_recursive, storeSeq, storeElems, storeTupNames,
          storeDictPairs])
  rename_i fr st kvs tb sep n restNames u f' r' r2 hx ih2 ih1 htb
  subst htb
  rw [← ih2]
  exact ih1

/-- Flattening under a string name never raises: all recursive calls use
string names, so the assertion and the non-string-column `Exception` are
unreachable from a string-named store. -/
theorem store_str_name_ok :
    (∀ (frame : Frame) (structured : Record) (name : PName) (value : Value)
        (tableOnly : Bool) (sep : String),
      (∀ ns, name ≠ PName.tup ns) →
      (store_recursive frame structured name value tableOnly sep).1 =
        .ok ()) ∧
    (∀ (frame : Frame) (structured : Record) (s sep : String)
        (kvs : List (String × Value)),
      (storeDictPairs frame structured s sep kvs).1 = .ok ()) ∧
    (∀ (_frame : Frame) (_structured : Record)
        (_kvs : List (String × Value)) (_names : List String)
        (_tableOnly : Bool) (_sep : String), True) ∧
    (∀ (frame : Frame) (structured : Record) (name : PName) (vs : List Value)
        (tableOnly : Bool) (sep : String),
      (∀ ns, name ≠ PName.tup ns) →
      (storeSeq frame structured name vs tableOnly sep).1 = .ok ()) ∧
    (∀ (frame : Frame) (structured : Record) (s sep : String) (i : Nat)
        (vs : List Value),
      (storeElems frame structured s sep i vs).1 = .ok ()) := by
  apply store_recursive.mutual_induct <;> intros <;>
    try (first
      | rfl
      | trivial
      | simp_all [store_recursive, storeSeq, storeElems, storeTupNames,
          storeDictPairs])

/-- A string-named flattening call only writes row columns that extend its
own name: any column not prefixed by the name is untouched (the tuple-name
and element loops write under their member names / index names). -/
theorem store_frame_prefix :
    (∀ (frame : Frame) (structured : Record) (name : PName) (value : Value)
        (tableOnly : Bool) (sep : String), ∀ n k, name = PName.str n →
      ¬ (n.data <+: k.data) →
      mapGet (store_recursive frame structured name value tableOnly sep).2.1
        k = mapGet frame k) ∧
    (∀ (frame : Frame) (structured : Record) (s sep : String)
        (kvs : List (String × Value)), ∀ k, ¬ (s.data <+: k.data) →
      mapGet (storeDictPairs frame structured s sep kvs).2.1 k =
        mapGet frame k) ∧
    (∀ (frame : Frame) (structured : Record) (kvs : List (String × Value))
        (names : List String) (tableOnly : Bool) (sep : String), ∀ k,
      (∀ n ∈ names, ¬ (n.data <+: k.data)) →
      mapGet (storeTupNames frame structured kvs names tableOnly sep).2.1 k =
        mapGet frame k) ∧
    (∀ (frame : Frame) (structured : Record) (name : PName) (vs : List Value)
        (tableOnly : Bool) (sep : String), ∀ n k, name = PName.str n →
      ¬ (n.data <+: k.data) →
      mapGet (storeSeq frame structured name vs tableOnly sep).2.1 k =
        mapGet frame k) ∧
    (∀ (frame : Frame) (structured : Record) (s sep : String) (i : Nat)
        (vs : List Value), ∀ k,
      (∀ j, ¬ ((s ++ sep ++ pyStr j).data <+: k.data)) →
      mapGet (storeElems frame structured s sep i vs).2.1 k =
        mapGet frame k) := by
  apply store_recursive.mutual_induct
  -- value None
  · intro f st name tb sep n k _ _
    simp [store_recursive]
  -- value tuple, via the list branch
  · intro f st name tb sep vs ih n k hname hnp
    simp only [store_recursive]
    exact ih n k hname hnp
  -- value list
  · intro f st name tb sep vs ih n k hname hnp
    simp only [store_recursive]
    exact ih n k hname hnp
  -- dict under a tuple name (the name is not a string: vacuous)
  · intro f st tb sep kvs names _ n k hname _
    exact absurd hname (by simp)
  -- dict under a string name, pairs loop raising
  · intro f st tb sep kvs s e f' r' heq ih n k hname hnp
    injection hname with hsn
    subst hsn
    have h2 := ih k hnp
    rw [heq] at h2
    simp only [store_recursive, heq]
    exact h2
  -- dict under a string name, pairs loop succeeding
  · intro f st tb sep kvs s a f' r' heq ih n k hname hnp
    injection hname with hsn
    subst hsn
    have h2 := ih k hnp
    rw [heq] at h2
    simp only [store_recursive, heq]
    exact h2
  -- scalar string under a string name
  · intro f st tb sep v a n k hname hnp
    injection hname with hsn
    subst hsn
    simp only [store_recursive]
    exact mapGet_mapSet_ne f a k (Value.vstr v) (not_prefix_self a k hnp)
  -- scalar string under a tuple name (raises, writes nothing)
  · intro f st tb sep v a n k hname _
    exact absurd hname (by simp)
  -- scalar int under a string name
  · intro f st tb sep v a n k hname hnp
    injection hname with hsn
    subst hsn
    simp only [store_recursive]
    exact mapGet_mapSet_ne f a k (Value.vint v) (not_prefix_self a k hnp)
  -- scalar int under a tuple name
  · intro f st tb sep v a n k hname _
    exact absurd hname (by simp)
  -- dict pairs, empty
  · intro f st s sep k _
    simp [storeDictPairs]
  -- dict pairs, head raising
  · intro f st s sep k' v' rest e f' r' heq ih k hnp
    have hpre : ¬ ((s ++ sep ++ k').data <+: k.data) := fun hp =>
      hnp (((str_prefix_append s sep).trans
        (str_prefix_append (s ++ sep) k')).trans hp)
    have h2 := ih (s ++ sep ++ k') k rfl hpre
    rw [heq] at h2
    simp only [storeDictPairs, heq]
    exact h2
  -- dict pairs, head succeeding
  · intro f st s sep k' v' rest a f' r' heq ih1 ih2 k hnp
    have hpre : ¬ ((s ++ sep ++ k').data <+: k.data) := fun hp =>
      hnp (((str_prefix_append s sep).trans
        (str_prefix_append (s ++ sep) k')).trans hp)
    have h2 := ih1 (s ++ sep ++ k') k rfl hpre
    rw [heq] at h2
    have h3 := ih2 k hnp
    simp only [storeDictPairs, heq]
    exact h3.trans h2
  -- tuple names, empty
  · intro f st kvs tb sep k _
    simp [storeTupNames]
  -- tuple names, head raising
  · intro f st kvs tb sep n restNames e f' r' heq ih k hall
    have h2 := ih n k rfl (hall n (List.mem_cons_self _ _))
    rw [heq] at h2
    simp only [storeTupNames, heq]
    exact h2
  -- tuple names, head succeeding
  · intro f st kvs tb sep n restNames a f' r' heq r2 ih1 ih2 k hall
    have h2 := ih1 n k rfl (hall n (List.mem_cons_self _ _))
    rw [heq] at h2
    have h3 := ih2 k (fun x hx => hall x (List.mem_cons_of_mem _ hx))
    simp only [storeTupNames, heq]
    exact h3.trans h2
  -- sequence under a tuple name (assertion, writes nothing)
  · intro f st vs tb sep names n k hname _
    exact absurd hname (by simp)
  -- sequence under a string name, element loop raising
  · intro f st vs tb sep s
    show ∀ (e : PyErr) (f' : Frame) (r' : Record),
      storeElems (mapSet f (s ++ sep ++ "length") (Value.vint vs.length))
        st s sep 0 vs = (.error e, f', r') → _
    intro e f' r' heq ih n k hname hnp
    injection hname with hsn
    subst hsn
    have hl : ∀ j, ¬ ((s ++ sep ++ pyStr j).data <+: k.data) := fun j hp =>
      hnp (((str_prefix_append s sep).trans
        (str_prefix_append (s ++ sep) (pyStr j))).trans hp)
    have h2 := ih k hl
    rw [heq] at h2
    have h3 : mapGet (mapSet f (s ++ sep ++ "length")
        (Value.vint vs.length)) k = mapGet f k :=
      mapGet_mapSet_of_extends f s (s ++ sep ++ "length") k _
        ((str_prefix_append s sep).trans
          (str_prefix_append (s ++ sep) "length")) hnp
    simp only [storeSeq, heq]
    exact h2.trans h3
  -- sequence under a string name, element loop succeeding
  · intro f st vs tb sep s
    show ∀ (a : Unit) (f' : Frame) (r' : Record),
      storeElems (mapSet f (s ++ sep ++ "length") (Value.vint vs.length))
        st s sep 0 vs = (.ok a, f', r') → _
    intro a f' r' heq ih n k hname hnp
    injection hname with hsn
    subst hsn
    have hl : ∀ j, ¬ ((s ++ sep ++ pyStr j).data <+: k.data) := fun j hp =>
      hnp (((str_prefix_append s sep).trans
        (str_prefix_append (s ++ sep) (pyStr j))).trans hp)
    have h2 := ih k hl
    rw [heq] at h2
    have h3 : mapGet (mapSet f (s ++ sep ++ "length")
        (Value.vint vs.length)) k = mapGet f k :=
      mapGet_mapSet_of_extends f s (s ++ sep ++ "length") k _
        ((str_prefix_append s sep).trans
          (str_prefix_append (s ++ sep) "length")) hnp
    simp only [storeSeq, heq]
    exact h2.trans h3
  -- element loop, empty
  · intro f st s sep i k _
    simp [storeElems]
  -- element loop, head raising
  · intro f st s sep i v rest e f' r' heq ih k hall
    have h2 := ih (s ++ sep ++ pyStr i) k rfl (hall i)
    rw [heq] at h2
    simp only [storeElems, heq]
    exact h2
  -- element loop, head succeeding
  · intro f st s sep i v rest a f' r' heq ih1 ih2 k hall
    have h2 := ih1 (s ++ sep ++ pyStr i) k rfl (hall i)
    rw [heq] at h2
    have h3 := ih2 k hall
    simp only [storeElems, heq]
    exact h3.trans h2

/-- The dict-under-tuple-name branch with `table_only=False`: every
declared name is flattened row-only and stored at top level in the record,
in order. -/
theorem storeTupNames_false_spec (kvs : List (String × Value)) :
    ∀ (names : List String) (f : Frame) (r : Record),
      (storeTupNames f r kvs names false ".").1 = .ok () ∧
      (storeTupNames f r kvs names false ".").2.2 =
        names.foldl (fun acc n => mapSet acc n (dictGet kvs n)) r := by
  intro names
  induction names with
  | nil => intro f r; exact ⟨by simp [storeTupNames], by simp [storeTupNames]⟩
  | cons n rest ih =>
    intro f r
    rcases hst : store_recursive f r (PName.str n) (dictGet kvs n) true "."
      with ⟨res, f', r'⟩
    have hok : res = .ok () := by
      have h := store_str_name_ok.1 f r (PName.str n) (dictGet kvs n) true "."
        (by intro ns hcon; cases hcon)
      rw [hst] at h
      exact h
    subst hok
    have hrec : r' = r := by
      have h := store_record_invariance.1 f r (PName.str n) (dictGet kvs n)
        true "." rfl
      rw [hst] at h
      exact h
    subst hrec
    constructor
    · simp only [storeTupNames, hst]
      exact (ih f' (mapSet r' n (dictGet kvs n))).1
    · simp only [storeTupNames, hst, List.foldl]
      exact (ih f' (mapSet r' n (dictGet kvs n))).2

/-- **C6 (amended).**  Flattening a sequence under a string name `s` (with
`table_only=False`) succeeds, writes the element count into the Row column
`s.length`, flattens the elements row-only (the Record receives exactly the
full sequence at `s` and nothing else), and flattening a mapping under a
tuple of names places each declared name's value at top level in both Row
and Record.  The claim's concrete example is corrected: it is the sequence
value `[1,2,3]` (not the mapping `{"a": [1,2,3]}`) whose flattening under
`"x"` yields columns `x.length=3, x.0=1, x.1=2, x.2=3` and Record
`{"x": [1,2,3]}`. -/
theorem flatten_sequence_and_tuple :
    (∀ (frame : Frame) (rec : Record) (s : String) (vs : List Value),
      (store_recursive frame rec (PName.str s) (Value.list vs) false ".").1 =
        .ok () ∧
      (store_recursive frame rec (PName.str s) (Value.list vs)
          false ".").2.2 = mapSet rec s (Value.list vs) ∧
      mapGet (store_recursive frame rec (PName.str s) (Value.list vs)
          false ".").2.1 (s ++ "." ++ "length") =
        Option.some (Value.vint vs.length)) ∧
    (∀ (frame : Frame) (rec : Record) (names : List String)
        (kvs : List (String × Value)),
      (store_recursive frame rec (PName.tup names) (Value.dict kvs)
          false ".").1 = .ok () ∧
      (store_recursive frame rec (PName.tup names) (Value.dict kvs)
          false ".").2.2 =
        names.foldl (fun acc n => mapSet acc n (dictGet kvs n)) rec) ∧
    store_recursive [] [] (PName.str "x")
        (Value.list [Value.vint 1, Value.vint 2, Value.vint 3]) false "." =
      (.ok (), [("x.length", Value.vint 3), ("x.0", Value.vint 1),
                ("x.1", Value.vint 2), ("x.2", Value.vint 3)],
       [("x", Value.list [Value.vint 1, Value.vint 2, Value.vint 3])]) ∧
    store_recursive [] [] (PName.tup ["received", "accepted"])
        (Value.dict [("received", Value.vstr "d1"),
          ("accepted", Value.vstr "d2")]) false "." =
      (.ok (), [("received", Value.vstr "d1"),
                ("accepted", Value.vstr "d2")],
       [("received", Value.vstr "d1"), ("accepted", Value.vstr "d2")]) := by
  refine ⟨?_, ?_, ?_, ?_⟩
  · intro frame rec s vs
    rcases hse : storeElems
        (mapSet frame (s ++ "." ++ "length") (Value.vint vs.length))
        rec s "." 0 vs with ⟨res, f', r'⟩
    have hok : res = .ok () := by
      have h := store_str_name_ok.2.2.2.2
        (mapSet frame (s ++ "." ++ "length") (Value.vint vs.length))
        rec s "." 0 vs
      rw [hse] at h
      exact h
    subst hok
    have hrec : r' = rec := by
      have h := store_record_invariance.2.2.2.2
        (mapSet frame (s ++ "." ++ "length") (Value.vint vs.length))
        rec s "." 0 vs
      rw [hse] at h
      exact h
    subst hrec
    have hcol : mapGet f' (s ++ "." ++ "length") =
        Option.some (Value.vint vs.length) := by
      have h := store_frame_prefix.2.2.2.2
        (mapSet frame (s ++ "." ++ "length") (Value.vint vs.length))
        r' s "." 0 vs (s ++ "." ++ "length")
        (fun j => index_not_prefix_length s j)
      rw [hse] at h
      rw [h]
      exact mapGet_mapSet_self frame (s ++ "." ++ "length")
        (Value.vint vs.length)
    refine ⟨?_, ?_, ?_⟩
    · simp [store_recursive, storeSeq, hse]
    · simp [store_recursive, storeSeq, hse]
    · simp only [store_recursive, storeSeq, hse]
      exact hcol
  · intro frame rec names kvs
    have h := storeTupNames_false_spec kvs names frame rec
    refine ⟨?_, ?_⟩
    · simp only [store_recursive]
      exact h.1
    · simp only [store_recursive]
      exact h.2
  · simp [store_recursive, storeSeq, storeElems, mapSet, natChars, pyStr]
  · simp [store_recursive, storeTupNames, dictGet, mapSet]

/-- The mapping value of the claim's example. -/
def wC6MapValue : Value :=
  Value.dict [("a", Value.list [Value.vint 1, Value.vint 2, Value.vint 3])]

/-- **C6 (counterexample).**  Flattening the mapping `{"a": [1,2,3]}` under
name `"x"` does *not* produce the claimed columns `x.length`, `x.0`, …: the
Row has no `x.length` column (the columns are `x.a.length`, `x.a.0`, …),
and the Record stores the mapping at `"x"`, not the sequence `[1,2,3]`. -/
theorem flatten_mapping_example_counterexample :
    mapGet (store_recursive [] [] (PName.str "x") wC6MapValue
      false ".").2.1 "x.length" = Option.none ∧
    mapGet (store_recursive [] [] (PName.str "x") wC6MapValue
      false ".").2.1 "x.a.length" = Option.some (Value.vint 3) ∧
    (store_recursive [] [] (PName.str "x") wC6MapValue false ".").2.2 =
      [("x", wC6MapValue)] ∧
    (store_recursive [] [] (PName.str "x") wC6MapValue false ".").2.2 ≠
      [("x", Value.list [Value.vint 1, Value.vint 2, Value.vint 3])] := by
  refine ⟨?_, ?_, ?_, ?_⟩ <;>
    simp [wC6MapValue, store_recursive, storeDictPairs, storeSeq,
      storeElems, mapSet, mapGet, natChars, pyStr, List.find?]
